import Mathlib

/-!
Verification of the startup orchestration module (`src-electron/main-process/startup.js`).

The module is shallowly embedded: every promise chain becomes a sequential Lean
function threading an explicit state.  External collaborators (database layer,
schema loader, ZCL loader, template engine, session manager, generator, SDK
regenerator, HTTP server) are abstracted by an `Oracle` recording, for each
collaborator call, the value it resolves with or the error it rejects with.
Each run returns a `RunOut`: the ordered trace of observable calls and effects,
the final modelled file system, the settled result, and module-level state.
The promise chains execute strictly sequentially (each `.then` waits for the
previous stage), which the sequential embedding reflects directly.
-/

set_option autoImplicit false

namespace Zap

/-- Error values carried by rejected promises. -/
abbrev Err := Nat

/-- Model of the file system visible to `startup.js`: an association list from
path to file content (content abstracted as a `Nat`). -/
abbrev FS := List (String × Nat)

namespace FS

/-- First binding for a path, if any. -/
def lookup : FS → String → Option Nat
  | [], _ => none
  | e :: rest, p => if e.1 = p then some e.2 else lookup rest p

/-- `fs.existsSync(p)`. -/
def existsSync (fs : FS) (p : String) : Bool := (fs.lookup p).isSome

/-- `fs.unlinkSync(p)`: remove the file at `p`. -/
def unlinkSync : FS → String → FS
  | [], _ => []
  | e :: rest, p => if e.1 = p then unlinkSync rest p else e :: unlinkSync rest p

/-- `fs.renameSync(src, dst)`: move the file at `src` to `dst`. -/
def renameSync (fs : FS) (src dst : String) : FS :=
  match fs.lookup src with
  | none => fs
  | some c => (dst, c) :: (fs.unlinkSync src).unlinkSync dst

end FS

/-- Observable calls and effects performed during a run, in order. -/
inductive Event where
  | logInitStdout
  | consoleLog (msg : String)
  | existsCheck (path : String) (result : Bool)
  | unlinkFile (path : String)
  | renameFile (src dst : String)
  | initDatabase (path : String)
  | resolveMainDatabase (db : Nat)
  | loadSchema (db : Nat)
  | loadZcl (db : Nat) (path : String)
  | loadTemplates (db : Nat) (path : String)
  | createBlankSession (db : Nat)
  | initSessionPackage (db sessionId : Nat)
  | generateAndWriteFiles (db sessionId packageId : Nat) (output : String) (log : Bool)
  | runSdkGeneration (db : Nat) (generationDir : String)
  | initHttpServer (db port : Nat)
  | initElectronUi (port : Nat)
  | dockHide
  | printUrl (port : Nat)
  | appQuit
  | logError (err : Err)
  | logWarning (msg : String)
  | logInfo (msg : String)
  deriving DecidableEq

/-- The context object produced by the ZCL loader and the template engine:
carries the database handle and the package identifier assigned by the load. -/
structure Ctx where
  db : Nat
  packageId : Nat
  deriving DecidableEq

/-- Resolution behaviour of every external collaborator call: for given
arguments, either the value the returned promise resolves with, or the error
it rejects with.  The orchestrator under verification is quantified over all
oracles, so every combination of stage successes and failures is covered. -/
structure Oracle where
  initDatabase : String → Except Err Nat
  loadSchema : Nat → Except Err Nat
  loadZcl : Nat → String → Except Err Ctx
  loadTemplates : Nat → String → Except Err Ctx
  createBlankSession : Nat → Except Err Nat
  initSessionPackage : Nat → Nat → Except Err Nat
  generateAndWriteFiles : Nat → Nat → Nat → String → Bool → Except Err Unit
  runSdkGeneration : Nat → String → Except Err Unit
  initHttpServer : Nat → Nat → Except Err Unit
  httpServerPort : Nat

/-- The fields of the `args` module read by `startup.js`. -/
structure Args where
  zclPropertiesFile : String
  genTemplateJsonFile : String
  noServer : Bool
  httpPort : Nat

/-- Truthiness of a possibly-undefined JavaScript boolean option
(`none` models `undefined`, which is falsy). -/
def truthy : Option Bool → Bool
  | some b => b
  | none => false

/-- Options object accepted by `startGeneration`; each field is `none` when the
caller's object lacks that property. -/
structure GenOptions where
  quit : Option Bool
  cleanDb : Option Bool
  log : Option Bool
  deriving DecidableEq

/-- The default parameter value of `startGeneration`:
`{ quit: true, cleanDb: true, log: true }`. -/
def defaultGenOptions : GenOptions := ⟨some true, some true, some true⟩

/-- Options object accepted by `startSdkGeneration`. -/
structure SdkOptions where
  quit : Option Bool
  cleanDb : Option Bool
  deriving DecidableEq

/-- The default parameter value of `startSdkGeneration`:
`{ quit: true, cleanDb: true }`. -/
def defaultSdkOptions : SdkOptions := ⟨some true, some true⟩

/-- Options object accepted by `startSelfCheck`; the body only ever reads
`options.log`, but a caller may pass any further properties (such as `quit`),
which are retained here to show they are ignored. -/
structure SelfCheckOptions where
  log : Option Bool
  quit : Option Bool
  deriving DecidableEq

/-- The default parameter value of `startSelfCheck`: `{ log: true }`
(no `quit` property, so `options.quit` is `undefined`). -/
def defaultSelfCheckOptions : SelfCheckOptions := ⟨some true, none⟩

/-- Result of one run: ordered event trace, final file system, settled
result of the promise chain, and the module-global main-database handle. -/
structure RunOut where
  trace : List Event
  fs : FS
  result : Except Err Unit
  mainDb : Option Nat
  packageId : Option Nat

/-- `true` exactly on a fulfilled result. -/
def resultOk : Except Err Unit → Bool
  | Except.ok _ => true
  | Except.error _ => false

/-- Emit one console line when `b` holds, nothing otherwise. -/
def logIf (b : Bool) (msg : String) : List Event :=
  if b then [Event.consoleLog msg] else []

/-- Emit `app.quit()` when `b` holds, nothing otherwise. -/
def quitIf (b : Bool) : List Event :=
  if b then [Event.appQuit] else []

/-- The guarded deletion `if (clean && fs.existsSync(p)) fs.unlinkSync(p)`,
with JavaScript short-circuit evaluation: the existence check only runs when
`clean` is truthy.  Returns the new file system and the emitted events. -/
def ensureFresh (fs : FS) (p : String) (clean : Bool) : FS × List Event :=
  if clean then
    if fs.existsSync p then
      (fs.unlinkSync p, [Event.existsCheck p true, Event.unlinkFile p])
    else
      (fs, [Event.existsCheck p false])
  else (fs, [])

/-- Models the trailing `.catch((err) => { env.logError(err); throw err })` of
every mode: on rejection, record the error once through the diagnostic sink and
re-raise it unchanged. -/
def withCatch (r : RunOut) : RunOut :=
  match r.result with
  | Except.ok _ => r
  | Except.error e =>
      ⟨r.trace ++ [Event.logError e], r.fs, Except.error e, r.mainDb, r.packageId⟩

/-- The UI step of `startNormal` after the HTTP-server step: show the Electron
UI when enabled, otherwise hide the dock (when present) and print the landing
url when `showUrl` and a server is running. -/
def uiEvents (uiEnabled hasDock showUrl noServer : Bool) (port : Nat) : List Event :=
  if uiEnabled then [Event.initElectronUi port]
  else
    (if hasDock then [Event.dockHide] else []) ++
      (if showUrl && !noServer then [Event.printUrl port] else [])

/-- `startNormal(uiEnabled, showUrl, uiMode)` before the final catch:
`initDatabase(env.sqliteFile())`, `resolveMainDatabase`, `loadSchema`,
`loadZcl(args.zclPropertiesFile)`, `loadTemplates(args.genTemplateJsonFile)`,
then the HTTP-server step (skipped when `args.noServer`), the UI step, and
`app.quit()` exactly when `args.noServer`. -/
def startNormalCore (sq : Option String → String) (a : Args) (o : Oracle)
    (hasDock uiEnabled showUrl : Bool) (fs0 : FS) : RunOut :=
  let dbFile := sq none
  let t0 := [Event.initDatabase dbFile]
  match o.initDatabase dbFile with
  | Except.error err => ⟨t0, fs0, Except.error err, none, none⟩
  | Except.ok db =>
    let t1 := t0 ++ [Event.resolveMainDatabase db, Event.loadSchema db]
    match o.loadSchema db with
    | Except.error err => ⟨t1, fs0, Except.error err, some db, none⟩
    | Except.ok db2 =>
      let t2 := t1 ++ [Event.loadZcl db2 a.zclPropertiesFile]
      match o.loadZcl db2 a.zclPropertiesFile with
      | Except.error err => ⟨t2, fs0, Except.error err, some db, none⟩
      | Except.ok c1 =>
        let t3 := t2 ++ [Event.loadTemplates c1.db a.genTemplateJsonFile]
        match o.loadTemplates c1.db a.genTemplateJsonFile with
        | Except.error err => ⟨t3, fs0, Except.error err, some db, none⟩
        | Except.ok c2 =>
          if a.noServer then
            let t4 := t3 ++ uiEvents uiEnabled hasDock showUrl true o.httpServerPort
              ++ [Event.appQuit]
            ⟨t4, fs0, Except.ok (), some db, none⟩
          else
            let t4 := t3 ++ [Event.initHttpServer c2.db a.httpPort]
            match o.initHttpServer c2.db a.httpPort with
            | Except.error err => ⟨t4, fs0, Except.error err, some db, none⟩
            | Except.ok _ =>
              let t5 := t4 ++ uiEvents uiEnabled hasDock showUrl false o.httpServerPort
              ⟨t5, fs0, Except.ok (), some db, none⟩

/-- `startNormal` including the final catch handler. -/
def startNormal (sq : Option String → String) (a : Args) (o : Oracle)
    (hasDock uiEnabled showUrl : Bool) (fs0 : FS) : RunOut :=
  withCatch (startNormalCore sq a o hasDock uiEnabled showUrl fs0)

/-- The banner printed at the start of `startSelfCheck`. -/
def scIntro (lg : Bool) : List Event :=
  Event.logInitStdout :: logIf lg "🤖 Starting self-check"

/-- `startSelfCheck(options = { log: true })` before the final catch:
delete any existing database file at `env.sqliteFile('self-check')`, then
`initDatabase`, `resolveMainDatabase`, `loadSchema`,
`loadZcl(args.zclPropertiesFile)`, `loadTemplates(args.genTemplateJsonFile)`,
a progress line after each successful stage when `options.log`, and an
unconditional `app.quit()` at the end. -/
def startSelfCheckCore (sq : Option String → String) (a : Args) (o : Oracle)
    (opts : SelfCheckOptions) (fs0 : FS) : RunOut :=
  let lg := truthy opts.log
  let dbFile := sq (some "self-check")
  let fe := ensureFresh fs0 dbFile true
  let fs1 := fe.1
  let t0 := scIntro lg ++ fe.2 ++ [Event.initDatabase dbFile]
  match o.initDatabase dbFile with
  | Except.error err => ⟨t0, fs1, Except.error err, none, none⟩
  | Except.ok db =>
    let t1 := t0 ++ logIf lg "    👉 database initialized"
      ++ [Event.resolveMainDatabase db, Event.loadSchema db]
    match o.loadSchema db with
    | Except.error err => ⟨t1, fs1, Except.error err, some db, none⟩
    | Except.ok db2 =>
      let t2 := t1 ++ logIf lg "    👉 schema initialized"
        ++ [Event.loadZcl db2 a.zclPropertiesFile]
      match o.loadZcl db2 a.zclPropertiesFile with
      | Except.error err => ⟨t2, fs1, Except.error err, some db, none⟩
      | Except.ok c1 =>
        let t3 := t2 ++ logIf lg "    👉 zcl data loaded"
          ++ [Event.loadTemplates c1.db a.genTemplateJsonFile]
        match o.loadTemplates c1.db a.genTemplateJsonFile with
        | Except.error err => ⟨t3, fs1, Except.error err, some db, none⟩
        | Except.ok _ =>
          let t4 := t3 ++ logIf lg "    👉 generation templates loaded"
            ++ logIf lg "😎 Self-check done!" ++ [Event.appQuit]
          ⟨t4, fs1, Except.ok (), some db, none⟩

/-- `startSelfCheck` including the final catch handler. -/
def startSelfCheck (sq : Option String → String) (a : Args) (o : Oracle)
    (opts : SelfCheckOptions) (fs0 : FS) : RunOut :=
  withCatch (startSelfCheckCore sq a o opts fs0)

/-- The informational console lines printed at the start of `startGeneration`. -/
def genIntro (output gt zcl : String) (zapFile : Option String) (lg : Bool) : List Event :=
  logIf lg ("🤖 Generation information: into: " ++ output ++ " using templates: "
      ++ gt ++ " using zcl data: " ++ zcl) ++
    (match zapFile with
     | some z => logIf lg ("    👉 using input file: " ++ z)
     | none => logIf lg "    👉 using empty configuration")

/-- `startGeneration(output, genTemplateJsonFile, zclProperties, zapFile,
options)` before the final catch: informational lines, guarded deletion of
`env.sqliteFile('generate')` when `options.cleanDb`, then `initDatabase`,
`resolveMainDatabase`, `loadSchema`, `loadZcl(zclProperties)`,
`loadTemplates(genTemplateJsonFile)`, capture of `ctx.packageId` into the local
`packageId` variable, `createBlankSession(env.mainDatabase())`,
`initializeSessionPackage`, `generateAndWriteFiles(env.mainDatabase(),
sessionId, packageId, output, options.log)`, and `app.quit()` exactly when
`options.quit`. -/
def startGenerationCore (sq : Option String → String) (o : Oracle)
    (output gt zcl : String) (zapFile : Option String) (opts : GenOptions)
    (fs0 : FS) : RunOut :=
  let lg := truthy opts.log
  let dbFile := sq (some "generate")
  let fe := ensureFresh fs0 dbFile (truthy opts.cleanDb)
  let fs1 := fe.1
  let t0 := genIntro output gt zcl zapFile lg ++ fe.2 ++ [Event.initDatabase dbFile]
  match o.initDatabase dbFile with
  | Except.error err => ⟨t0, fs1, Except.error err, none, none⟩
  | Except.ok db =>
    let t1 := t0 ++ [Event.resolveMainDatabase db, Event.loadSchema db]
    match o.loadSchema db with
    | Except.error err => ⟨t1, fs1, Except.error err, some db, none⟩
    | Except.ok db2 =>
      let t2 := t1 ++ [Event.loadZcl db2 zcl]
      match o.loadZcl db2 zcl with
      | Except.error err => ⟨t2, fs1, Except.error err, some db, none⟩
      | Except.ok c1 =>
        let t3 := t2 ++ [Event.loadTemplates c1.db gt]
        match o.loadTemplates c1.db gt with
        | Except.error err => ⟨t3, fs1, Except.error err, some db, none⟩
        | Except.ok c2 =>
          let pid := c2.packageId
          let t4 := t3 ++ [Event.createBlankSession db]
          match o.createBlankSession db with
          | Except.error err => ⟨t4, fs1, Except.error err, some db, some pid⟩
          | Except.ok sid =>
            let t5 := t4 ++ [Event.initSessionPackage db sid]
            match o.initSessionPackage db sid with
            | Except.error err => ⟨t5, fs1, Except.error err, some db, some pid⟩
            | Except.ok sid2 =>
              let t6 := t5 ++ [Event.generateAndWriteFiles db sid2 pid output lg]
              match o.generateAndWriteFiles db sid2 pid output lg with
              | Except.error err => ⟨t6, fs1, Except.error err, some db, some pid⟩
              | Except.ok _ =>
                ⟨t6 ++ quitIf (truthy opts.quit), fs1, Except.ok (), some db, some pid⟩

/-- `startGeneration` including the final catch handler. -/
def startGeneration (sq : Option String → String) (o : Oracle)
    (output gt zcl : String) (zapFile : Option String) (opts : GenOptions)
    (fs0 : FS) : RunOut :=
  withCatch (startGenerationCore sq o output gt zcl zapFile opts fs0)

/-- The ZCL properties path used by `startSdkGeneration`:
`zclPropertiesFilePath ? zclPropertiesFilePath : args.zclPropertiesFile`. -/
def sdkZclFile (a : Args) (zclPath : Option String) : String :=
  match zclPath with
  | some p => p
  | none => a.zclPropertiesFile

/-- `startSdkGeneration(generationDir, zclPropertiesFilePath, options)` before
the final catch: `logInfo`, guarded deletion of `env.sqliteFile('sdk-regen')`
when `options.cleanDb`, then `initDatabase`, `resolveMainDatabase`,
`loadSchema`, `loadZcl` with the supplied path or `args.zclPropertiesFile` as
fallback, `runSdkGeneration`, and `app.quit()` exactly when `options.quit`. -/
def startSdkGenerationCore (sq : Option String → String) (a : Args) (o : Oracle)
    (generationDir : String) (zclPath : Option String) (opts : SdkOptions)
    (fs0 : FS) : RunOut :=
  let dbFile := sq (some "sdk-regen")
  let zclFile := sdkZclFile a zclPath
  let fe := ensureFresh fs0 dbFile (truthy opts.cleanDb)
  let fs1 := fe.1
  let t0 := Event.logInfo "Start SDK generation..." :: fe.2 ++ [Event.initDatabase dbFile]
  match o.initDatabase dbFile with
  | Except.error err => ⟨t0, fs1, Except.error err, none, none⟩
  | Except.ok db =>
    let t1 := t0 ++ [Event.resolveMainDatabase db, Event.loadSchema db]
    match o.loadSchema db with
    | Except.error err => ⟨t1, fs1, Except.error err, some db, none⟩
    | Except.ok db2 =>
      let t2 := t1 ++ [Event.loadZcl db2 zclFile]
      match o.loadZcl db2 zclFile with
      | Except.error err => ⟨t2, fs1, Except.error err, some db, none⟩
      | Except.ok c1 =>
        let t3 := t2 ++ [Event.runSdkGeneration c1.db generationDir]
        match o.runSdkGeneration c1.db generationDir with
        | Except.error err => ⟨t3, fs1, Except.error err, some db, none⟩
        | Except.ok _ =>
          ⟨t3 ++ quitIf (truthy opts.quit), fs1, Except.ok (), some db, none⟩

/-- `startSdkGeneration` including the final catch handler. -/
def startSdkGeneration (sq : Option String → String) (a : Args) (o : Oracle)
    (generationDir : String) (zclPath : Option String) (opts : SdkOptions)
    (fs0 : FS) : RunOut :=
  withCatch (startSdkGenerationCore sq a o generationDir zclPath opts fs0)

/-- `clearDatabaseFile()`: with `path = env.sqliteFile()` and
`pathBak = path + '~'`, if a file exists at `path`, delete any existing backup
at `pathBak` first (logging a warning), then rename the live file to the backup
name (logging a warning). -/
def clearDatabaseFile (sq : Option String → String) (fs0 : FS) : RunOut :=
  let path := sq none
  let pathBak := path ++ "~"
  if fs0.existsSync path then
    let t0 := [Event.existsCheck path true, Event.existsCheck pathBak (fs0.existsSync pathBak)]
    let step1 : FS × List Event :=
      if fs0.existsSync pathBak then
        (fs0.unlinkSync pathBak,
          [Event.logWarning ("Deleting old backup file: " ++ pathBak),
           Event.unlinkFile pathBak])
      else (fs0, [])
    ⟨t0 ++ step1.2 ++
        [Event.logWarning ("Database restart requested, moving file: " ++ path
            ++ " to " ++ pathBak),
         Event.renameFile path pathBak],
      step1.1.renameSync path pathBak, Except.ok (), none, none⟩
  else
    ⟨[Event.existsCheck path false], fs0, Except.ok (), none, none⟩

/-- Classification of pipeline stage calls appearing in a trace, keeping the
caller-visible arguments (paths, output directory, log flag) and dropping the
oracle-supplied handles. -/
inductive StageCall where
  | ensureFresh (path : String)
  | openDb (path : String)
  | loadSchema
  | loadZcl (path : String)
  | loadTemplates (path : String)
  | createSession
  | initPackages
  | generate (output : String) (log : Bool)
  | sdkGen (generationDir : String)
  deriving DecidableEq

/-- The stage call (if any) an event records.  `resolveMainDatabase` only
stores the already-opened handle in module state, so it is not a stage. -/
def stageCall : Event → Option StageCall
  | Event.unlinkFile p => some (StageCall.ensureFresh p)
  | Event.initDatabase p => some (StageCall.openDb p)
  | Event.loadSchema _ => some StageCall.loadSchema
  | Event.loadZcl _ p => some (StageCall.loadZcl p)
  | Event.loadTemplates _ p => some (StageCall.loadTemplates p)
  | Event.createBlankSession _ => some StageCall.createSession
  | Event.initSessionPackage _ _ => some StageCall.initPackages
  | Event.generateAndWriteFiles _ _ _ od lg => some (StageCall.generate od lg)
  | Event.runSdkGeneration _ d => some (StageCall.sdkGen d)
  | _ => none

/-- The ordered stage calls of a trace. -/
def stageCalls (t : List Event) : List StageCall := t.filterMap stageCall

/-- The fixed stage order of headless generation after the ensure-fresh step,
with the caller-supplied paths in place. -/
def genCallList (sq : Option String → String) (output gt zcl : String)
    (opts : GenOptions) : List StageCall :=
  [StageCall.openDb (sq (some "generate")), StageCall.loadSchema,
   StageCall.loadZcl zcl, StageCall.loadTemplates gt, StageCall.createSession,
   StageCall.initPackages, StageCall.generate output (truthy opts.log)]

/-- The fixed stage order of self-check after the ensure-fresh step, with the
built-in default paths in place. -/
def scCallList (sq : Option String → String) (a : Args) : List StageCall :=
  [StageCall.openDb (sq (some "self-check")), StageCall.loadSchema,
   StageCall.loadZcl a.zclPropertiesFile,
   StageCall.loadTemplates a.genTemplateJsonFile]

/-- Recognizes diagnostic-sink error records. -/
def isLogError : Event → Bool
  | Event.logError _ => true
  | _ => false

/-- How many times a trace records an error through the diagnostic sink. -/
def logErrorCount : List Event → Nat
  | [] => 0
  | e :: t => (if isLogError e then 1 else 0) + logErrorCount t

/-- The four per-stage progress lines of self-check, in stage order. -/
def scProgressLines : List String :=
  ["    👉 database initialized", "    👉 schema initialized",
   "    👉 zcl data loaded", "    👉 generation templates loaded"]

/-- The per-stage progress lines occurring in a trace, in order. -/
def scProgressEvents : List Event → List String
  | [] => []
  | Event.consoleLog m :: t =>
      if m ∈ scProgressLines then m :: scProgressEvents t else scProgressEvents t
  | _ :: t => scProgressEvents t

theorem FS.lookup_unlinkSync_self (fs : FS) (p : String) :
    (fs.unlinkSync p).lookup p = none := by
  induction fs with
  | nil => rfl
  | cons e rest ih =>
    by_cases h : e.1 = p
    · simpa [FS.unlinkSync, h] using ih
    · simpa [FS.unlinkSync, h, FS.lookup] using ih

theorem FS.existsSync_unlinkSync_self (fs : FS) (p : String) :
    (fs.unlinkSync p).existsSync p = false := by
  simp [FS.existsSync, FS.lookup_unlinkSync_self]

theorem FS.lookup_unlinkSync_ne (fs : FS) (p q : String) (h : p ≠ q) :
    (fs.unlinkSync q).lookup p = fs.lookup p := by
  have hqp : q ≠ p := Ne.symm h
  induction fs with
  | nil => rfl
  | cons e rest ih =>
    by_cases he : e.1 = q
    · simp [FS.unlinkSync, he, FS.lookup, hqp, ih]
    · simp [FS.unlinkSync, he, FS.lookup, ih]

/-- A path never equals itself with the backup marker appended. -/
theorem append_tilde_ne (p : String) : p ++ "~" ≠ p := by
  intro h
  have h2 : (p ++ "~").length = p.length := congrArg String.length h
  simp [String.length_append] at h2
  exact absurd h2 (by decide)

/-- The events of a `startGeneration` run up to and including the database
open: informational lines, ensure-fresh events, `initDatabase`. -/
def genPre (sq : Option String → String) (output gt zcl : String)
    (zapFile : Option String) (opts : GenOptions) (fs0 : FS) : List Event :=
  genIntro output gt zcl zapFile (truthy opts.log) ++
    (ensureFresh fs0 (sq (some "generate")) (truthy opts.cleanDb)).2 ++
    [Event.initDatabase (sq (some "generate"))]

/-- The file system left by a `startGeneration` run (only the ensure-fresh
step touches the modelled file system). -/
def genFs (sq : Option String → String) (opts : GenOptions) (fs0 : FS) : FS :=
  (ensureFresh fs0 (sq (some "generate")) (truthy opts.cleanDb)).1

/-- Exhaustive case analysis of `startGeneration`: every run settles in exactly
one of eight shapes, one per first failing stage plus full success. -/
theorem startGeneration_shape (sq : Option String → String) (o : Oracle)
    (output gt zcl : String) (zapFile : Option String) (opts : GenOptions) (fs0 : FS) :
    (∃ err, o.initDatabase (sq (some "generate")) = Except.error err ∧
      startGeneration sq o output gt zcl zapFile opts fs0 =
        ⟨genPre sq output gt zcl zapFile opts fs0 ++ [Event.logError err],
          genFs sq opts fs0, Except.error err, none, none⟩) ∨
    (∃ db err, o.initDatabase (sq (some "generate")) = Except.ok db ∧
      o.loadSchema db = Except.error err ∧
      startGeneration sq o output gt zcl zapFile opts fs0 =
        ⟨genPre sq output gt zcl zapFile opts fs0 ++
            [Event.resolveMainDatabase db, Event.loadSchema db, Event.logError err],
          genFs sq opts fs0, Except.error err, some db, none⟩) ∨
    (∃ db db2 err, o.initDatabase (sq (some "generate")) = Except.ok db ∧
      o.loadSchema db = Except.ok db2 ∧
      o.loadZcl db2 zcl = Except.error err ∧
      startGeneration sq o output gt zcl zapFile opts fs0 =
        ⟨genPre sq output gt zcl zapFile opts fs0 ++
            [Event.resolveMainDatabase db, Event.loadSchema db,
             Event.loadZcl db2 zcl, Event.logError err],
          genFs sq opts fs0, Except.error err, some db, none⟩) ∨
    (∃ db db2 c1 err, o.initDatabase (sq (some "generate")) = Except.ok db ∧
      o.loadSchema db = Except.ok db2 ∧
      o.loadZcl db2 zcl = Except.ok c1 ∧
      o.loadTemplates c1.db gt = Except.error err ∧
      startGeneration sq o output gt zcl zapFile opts fs0 =
        ⟨genPre sq output gt zcl zapFile opts fs0 ++
            [Event.resolveMainDatabase db, Event.loadSchema db,
             Event.loadZcl db2 zcl, Event.loadTemplates c1.db gt, Event.logError err],
          genFs sq opts fs0, Except.error err, some db, none⟩) ∨
    (∃ db db2 c1 c2 err, o.initDatabase (sq (some "generate")) = Except.ok db ∧
      o.loadSchema db = Except.ok db2 ∧
      o.loadZcl db2 zcl = Except.ok c1 ∧
      o.loadTemplates c1.db gt = Except.ok c2 ∧
      o.createBlankSession db = Except.error err ∧
      startGeneration sq o output gt zcl zapFile opts fs0 =
        ⟨genPre sq output gt zcl zapFile opts fs0 ++
            [Event.resolveMainDatabase db, Event.loadSchema db,
             Event.loadZcl db2 zcl, Event.loadTemplates c1.db gt,
             Event.createBlankSession db, Event.logError err],
          genFs sq opts fs0, Except.error err, some db, some c2.packageId⟩) ∨
    (∃ db db2 c1 c2 sid err, o.initDatabase (sq (some "generate")) = Except.ok db ∧
      o.loadSchema db = Except.ok db2 ∧
      o.loadZcl db2 zcl = Except.ok c1 ∧
      o.loadTemplates c1.db gt = Except.ok c2 ∧
      o.createBlankSession db = Except.ok sid ∧
      o.initSessionPackage db sid = Except.error err ∧
      startGeneration sq o output gt zcl zapFile opts fs0 =
        ⟨genPre sq output gt zcl zapFile opts fs0 ++
            [Event.resolveMainDatabase db, Event.loadSchema db,
             Event.loadZcl db2 zcl, Event.loadTemplates c1.db gt,
             Event.createBlankSession db, Event.initSessionPackage db sid,
             Event.logError err],
          genFs sq opts fs0, Except.error err, some db, some c2.packageId⟩) ∨
    (∃ db db2 c1 c2 sid sid2 err, o.initDatabase (sq (some "generate")) = Except.ok db ∧
      o.loadSchema db = Except.ok db2 ∧
      o.loadZcl db2 zcl = Except.ok c1 ∧
      o.loadTemplates c1.db gt = Except.ok c2 ∧
      o.createBlankSession db = Except.ok sid ∧
      o.initSessionPackage db sid = Except.ok sid2 ∧
      o.generateAndWriteFiles db sid2 c2.packageId output (truthy opts.log) =
        Except.error err ∧
      startGeneration sq o output gt zcl zapFile opts fs0 =
        ⟨genPre sq output gt zcl zapFile opts fs0 ++
            [Event.resolveMainDatabase db, Event.loadSchema db,
             Event.loadZcl db2 zcl, Event.loadTemplates c1.db gt,
             Event.createBlankSession db, Event.initSessionPackage db sid,
             Event.generateAndWriteFiles db sid2 c2.packageId output (truthy opts.log),
             Event.logError err],
          genFs sq opts fs0, Except.error err, some db, some c2.packageId⟩) ∨
    (∃ db db2 c1 c2 sid sid2, o.initDatabase (sq (some "generate")) = Except.ok db ∧
      o.loadSchema db = Except.ok db2 ∧
      o.loadZcl db2 zcl = Except.ok c1 ∧
      o.loadTemplates c1.db gt = Except.ok c2 ∧
      o.createBlankSession db = Except.ok sid ∧
      o.initSessionPackage db sid = Except.ok sid2 ∧
      o.generateAndWriteFiles db sid2 c2.packageId output (truthy opts.log) =
        Except.ok () ∧
      startGeneration sq o output gt zcl zapFile opts fs0 =
        ⟨genPre sq output gt zcl zapFile opts fs0 ++
            [Event.resolveMainDatabase db, Event.loadSchema db,
             Event.loadZcl db2 zcl, Event.loadTemplates c1.db gt,
             Event.createBlankSession db, Event.initSessionPackage db sid,
             Event.generateAndWriteFiles db sid2 c2.packageId output (truthy opts.log)] ++
            quitIf (truthy opts.quit),
          genFs sq opts fs0, Except.ok (), some db, some c2.packageId⟩) := by
  simp only [startGeneration, startGenerationCore, withCatch, genPre, genFs]
  cases h1 : o.initDatabase (sq (some "generate")) with
  | error err =>
    exact Or.inl ⟨err, by first | exact h1 | rfl, by simp [h1]⟩
  | ok db =>
    cases h2 : o.loadSchema db with
    | error err =>
      exact Or.inr (Or.inl ⟨db, err, by first | exact h1 | rfl,
        by first | exact h2 | rfl, by simp [h1, h2]⟩)
    | ok db2 =>
      cases h3 : o.loadZcl db2 zcl with
      | error err =>
        exact Or.inr (Or.inr (Or.inl ⟨db, db2, err, by first | exact h1 | rfl,
          by first | exact h2 | rfl, by first | exact h3 | rfl, by simp [h1, h2, h3]⟩))
      | ok c1 =>
        cases h4 : o.loadTemplates c1.db gt with
        | error err =>
          exact Or.inr (Or.inr (Or.inr (Or.inl
            ⟨db, db2, c1, err, by first | exact h1 | rfl, by first | exact h2 | rfl,
              by first | exact h3 | rfl, by first | exact h4 | rfl,
              by simp [h1, h2, h3, h4]⟩)))
        | ok c2 =>
          cases h5 : o.createBlankSession db with
          | error err =>
            exact Or.inr (Or.inr (Or.inr (Or.inr (Or.inl
              ⟨db, db2, c1, c2, err, by first | exact h1 | rfl, by first | exact h2 | rfl,
                by first | exact h3 | rfl, by first | exact h4 | rfl,
                by first | exact h5 | rfl, by simp [h1, h2, h3, h4, h5]⟩))))
          | ok sid =>
            cases h6 : o.initSessionPackage db sid with
            | error err =>
              exact Or.inr (Or.inr (Or.inr (Or.inr (Or.inr (Or.inl
                ⟨db, db2, c1, c2, sid, err, by first | exact h1 | rfl,
                  by first | exact h2 | rfl, by first | exact h3 | rfl,
                  by first | exact h4 | rfl, by first | exact h5 | rfl,
                  by first | exact h6 | rfl, by simp [h1, h2, h3, h4, h5, h6]⟩)))))
            | ok sid2 =>
              cases h7 : o.generateAndWriteFiles db sid2 c2.packageId output
                  (truthy opts.log) with
              | error err =>
                exact Or.inr (Or.inr (Or.inr (Or.inr (Or.inr (Or.inr (Or.inl
                  ⟨db, db2, c1, c2, sid, sid2, err, by first | exact h1 | rfl,
                    by first | exact h2 | rfl, by first | exact h3 | rfl,
                    by first | exact h4 | rfl, by first | exact h5 | rfl,
                    by first | exact h6 | rfl, by first | exact h7 | rfl,
                    by simp [h1, h2, h3, h4, h5, h6, h7]⟩))))))
              | ok u =>
                cases u
                exact Or.inr (Or.inr (Or.inr (Or.inr (Or.inr (Or.inr (Or.inr
                  ⟨db, db2, c1, c2, sid, sid2, by first | exact h1 | rfl,
                    by first | exact h2 | rfl, by first | exact h3 | rfl,
                    by first | exact h4 | rfl, by first | exact h5 | rfl,
                    by first | exact h6 | rfl, by first | exact h7 | rfl,
                    by simp [h1, h2, h3, h4, h5, h6, h7]⟩))))))

/-- The events of a `startSelfCheck` run up to and including the database
open: banner, unconditional ensure-fresh events, `initDatabase`. -/
def scPre (sq : Option String → String) (opts : SelfCheckOptions) (fs0 : FS) : List Event :=
  scIntro (truthy opts.log) ++
    (ensureFresh fs0 (sq (some "self-check")) true).2 ++
    [Event.initDatabase (sq (some "self-check"))]

/-- The file system left by a `startSelfCheck` run. -/
def scFs (sq : Option String → String) (fs0 : FS) : FS :=
  (ensureFresh fs0 (sq (some "self-check")) true).1

/-- Exhaustive case analysis of `startSelfCheck`: every run settles in exactly
one of five shapes, one per first failing stage plus full success. -/
theorem startSelfCheck_shape (sq : Option String → String) (a : Args) (o : Oracle)
    (opts : SelfCheckOptions) (fs0 : FS) :
    (∃ err, o.initDatabase (sq (some "self-check")) = Except.error err ∧
      startSelfCheck sq a o opts fs0 =
        ⟨scPre sq opts fs0 ++ [Event.logError err],
          scFs sq fs0, Except.error err, none, none⟩) ∨
    (∃ db err, o.initDatabase (sq (some "self-check")) = Except.ok db ∧
      o.loadSchema db = Except.error err ∧
      startSelfCheck sq a o opts fs0 =
        ⟨scPre sq opts fs0 ++ logIf (truthy opts.log) "    👉 database initialized" ++
            [Event.resolveMainDatabase db, Event.loadSchema db, Event.logError err],
          scFs sq fs0, Except.error err, some db, none⟩) ∨
    (∃ db db2 err, o.initDatabase (sq (some "self-check")) = Except.ok db ∧
      o.loadSchema db = Except.ok db2 ∧
      o.loadZcl db2 a.zclPropertiesFile = Except.error err ∧
      startSelfCheck sq a o opts fs0 =
        ⟨scPre sq opts fs0 ++ logIf (truthy opts.log) "    👉 database initialized" ++
            [Event.resolveMainDatabase db, Event.loadSchema db] ++
            logIf (truthy opts.log) "    👉 schema initialized" ++
            [Event.loadZcl db2 a.zclPropertiesFile, Event.logError err],
          scFs sq fs0, Except.error err, some db, none⟩) ∨
    (∃ db db2 c1 err, o.initDatabase (sq (some "self-check")) = Except.ok db ∧
      o.loadSchema db = Except.ok db2 ∧
      o.loadZcl db2 a.zclPropertiesFile = Except.ok c1 ∧
      o.loadTemplates c1.db a.genTemplateJsonFile = Except.error err ∧
      startSelfCheck sq a o opts fs0 =
        ⟨scPre sq opts fs0 ++ logIf (truthy opts.log) "    👉 database initialized" ++
            [Event.resolveMainDatabase db, Event.loadSchema db] ++
            logIf (truthy opts.log) "    👉 schema initialized" ++
            [Event.loadZcl db2 a.zclPropertiesFile] ++
            logIf (truthy opts.log) "    👉 zcl data loaded" ++
            [Event.loadTemplates c1.db a.genTemplateJsonFile, Event.logError err],
          scFs sq fs0, Except.error err, some db, none⟩) ∨
    (∃ db db2 c1 c2, o.initDatabase (sq (some "self-check")) = Except.ok db ∧
      o.loadSchema db = Except.ok db2 ∧
      o.loadZcl db2 a.zclPropertiesFile = Except.ok c1 ∧
      o.loadTemplates c1.db a.genTemplateJsonFile = Except.ok c2 ∧
      startSelfCheck sq a o opts fs0 =
        ⟨scPre sq opts fs0 ++ logIf (truthy opts.log) "    👉 database initialized" ++
            [Event.resolveMainDatabase db, Event.loadSchema db] ++
            logIf (truthy opts.log) "    👉 schema initialized" ++
            [Event.loadZcl db2 a.zclPropertiesFile] ++
            logIf (truthy opts.log) "    👉 zcl data loaded" ++
            [Event.loadTemplates c1.db a.genTemplateJsonFile] ++
            logIf (truthy opts.log) "    👉 generation templates loaded" ++
            logIf (truthy opts.log) "😎 Self-check done!" ++ [Event.appQuit],
          scFs sq fs0, Except.ok (), some db, none⟩) := by
  simp only [startSelfCheck, startSelfCheckCore, withCatch, scPre, scFs]
  cases h1 : o.initDatabase (sq (some "self-check")) with
  | error err =>
    exact Or.inl ⟨err, by first | exact h1 | rfl, by simp [h1]⟩
  | ok db =>
    cases h2 : o.loadSchema db with
    | error err =>
      exact Or.inr (Or.inl ⟨db, err, by first | exact h1 | rfl,
        by first | exact h2 | rfl, by simp [h1, h2]⟩)
    | ok db2 =>
      cases h3 : o.loadZcl db2 a.zclPropertiesFile with
      | error err =>
        exact Or.inr (Or.inr (Or.inl ⟨db, db2, err, by first | exact h1 | rfl,
          by first | exact h2 | rfl, by first | exact h3 | rfl, by simp [h1, h2, h3]⟩))
      | ok c1 =>
        cases h4 : o.loadTemplates c1.db a.genTemplateJsonFile with
        | error err =>
          exact Or.inr (Or.inr (Or.inr (Or.inl
            ⟨db, db2, c1, err, by first | exact h1 | rfl, by first | exact h2 | rfl,
              by first | exact h3 | rfl, by first | exact h4 | rfl,
              by simp [h1, h2, h3, h4]⟩)))
        | ok c2 =>
          exact Or.inr (Or.inr (Or.inr (Or.inr
            ⟨db, db2, c1, c2, by first | exact h1 | rfl, by first | exact h2 | rfl,
              by first | exact h3 | rfl, by first | exact h4 | rfl,
              by simp [h1, h2, h3, h4]⟩)))

/-- The events of a `startSdkGeneration` run up to and including the database
open. -/
def sdkPre (sq : Option String → String) (opts : SdkOptions) (fs0 : FS) : List Event :=
  Event.logInfo "Start SDK generation..." ::
    ((ensureFresh fs0 (sq (some "sdk-regen")) (truthy opts.cleanDb)).2 ++
      [Event.initDatabase (sq (some "sdk-regen"))])

/-- The file system left by a `startSdkGeneration` run. -/
def sdkFs (sq : Option String → String) (opts : SdkOptions) (fs0 : FS) : FS :=
  (ensureFresh fs0 (sq (some "sdk-regen")) (truthy opts.cleanDb)).1

/-- Exhaustive case analysis of `startSdkGeneration`: every run settles in
exactly one of five shapes, one per first failing stage plus full success. -/
theorem startSdkGeneration_shape (sq : Option String → String) (a : Args) (o : Oracle)
    (generationDir : String) (zclPath : Option String) (opts : SdkOptions) (fs0 : FS) :
    (∃ err, o.initDatabase (sq (some "sdk-regen")) = Except.error err ∧
      startSdkGeneration sq a o generationDir zclPath opts fs0 =
        ⟨sdkPre sq opts fs0 ++ [Event.logError err],
          sdkFs sq opts fs0, Except.error err, none, none⟩) ∨
    (∃ db err, o.initDatabase (sq (some "sdk-regen")) = Except.ok db ∧
      o.loadSchema db = Except.error err ∧
      startSdkGeneration sq a o generationDir zclPath opts fs0 =
        ⟨sdkPre sq opts fs0 ++
            [Event.resolveMainDatabase db, Event.loadSchema db, Event.logError err],
          sdkFs sq opts fs0, Except.error err, some db, none⟩) ∨
    (∃ db db2 err, o.initDatabase (sq (some "sdk-regen")) = Except.ok db ∧
      o.loadSchema db = Except.ok db2 ∧
      o.loadZcl db2 (sdkZclFile a zclPath) = Except.error err ∧
      startSdkGeneration sq a o generationDir zclPath opts fs0 =
        ⟨sdkPre sq opts fs0 ++
            [Event.resolveMainDatabase db, Event.loadSchema db,
             Event.loadZcl db2 (sdkZclFile a zclPath), Event.logError err],
          sdkFs sq opts fs0, Except.error err, some db, none⟩) ∨
    (∃ db db2 c1 err, o.initDatabase (sq (some "sdk-regen")) = Except.ok db ∧
      o.loadSchema db = Except.ok db2 ∧
      o.loadZcl db2 (sdkZclFile a zclPath) = Except.ok c1 ∧
      o.runSdkGeneration c1.db generationDir = Except.error err ∧
      startSdkGeneration sq a o generationDir zclPath opts fs0 =
        ⟨sdkPre sq opts fs0 ++
            [Event.resolveMainDatabase db, Event.loadSchema db,
             Event.loadZcl db2 (sdkZclFile a zclPath),
             Event.runSdkGeneration c1.db generationDir, Event.logError err],
          sdkFs sq opts fs0, Except.error err, some db, none⟩) ∨
    (∃ db db2 c1, o.initDatabase (sq (some "sdk-regen")) = Except.ok db ∧
      o.loadSchema db = Except.ok db2 ∧
      o.loadZcl db2 (sdkZclFile a zclPath) = Except.ok c1 ∧
      o.runSdkGeneration c1.db generationDir = Except.ok () ∧
      startSdkGeneration sq a o generationDir zclPath opts fs0 =
        ⟨sdkPre sq opts fs0 ++
            [Event.resolveMainDatabase db, Event.loadSchema db,
             Event.loadZcl db2 (sdkZclFile a zclPath),
             Event.runSdkGeneration c1.db generationDir] ++
            quitIf (truthy opts.quit),
          sdkFs sq opts fs0, Except.ok (), some db, none⟩) := by
  simp only [startSdkGeneration, startSdkGenerationCore, withCatch, sdkPre, sdkFs]
  cases h1 : o.initDatabase (sq (some "sdk-regen")) with
  | error err =>
    exact Or.inl ⟨err, by first | exact h1 | rfl, by simp [h1]⟩
  | ok db =>
    cases h2 : o.loadSchema db with
    | error err =>
      exact Or.inr (Or.inl ⟨db, err, by first | exact h1 | rfl,
        by first | exact h2 | rfl, by simp [h1, h2]⟩)
    | ok db2 =>
      cases h3 : o.loadZcl db2 (sdkZclFile a zclPath) with
      | error err =>
        exact Or.inr (Or.inr (Or.inl ⟨db, db2, err, by first | exact h1 | rfl,
          by first | exact h2 | rfl, by first | exact h3 | rfl, by simp [h1, h2, h3]⟩))
      | ok c1 =>
        cases h4 : o.runSdkGeneration c1.db generationDir with
        | error err =>
          exact Or.inr (Or.inr (Or.inr (Or.inl
            ⟨db, db2, c1, err, by first | exact h1 | rfl, by first | exact h2 | rfl,
              by first | exact h3 | rfl, by first | exact h4 | rfl,
              by simp [h1, h2, h3, h4]⟩)))
        | ok u =>
          cases u
          exact Or.inr (Or.inr (Or.inr (Or.inr
            ⟨db, db2, c1, by first | exact h1 | rfl, by first | exact h2 | rfl,
              by first | exact h3 | rfl, by first | exact h4 | rfl,
              by simp [h1, h2, h3, h4]⟩)))

/-- Exhaustive case analysis of `startNormal`: every run settles in exactly
one of seven shapes — four stage failures, a no-server success with quit, an
HTTP-server failure, and a with-server resident success. -/
theorem startNormal_shape (sq : Option String → String) (a : Args) (o : Oracle)
    (hasDock uiEnabled showUrl : Bool) (fs0 : FS) :
    (∃ err, o.initDatabase (sq none) = Except.error err ∧
      startNormal sq a o hasDock uiEnabled showUrl fs0 =
        ⟨[Event.initDatabase (sq none), Event.logError err],
          fs0, Except.error err, none, none⟩) ∨
    (∃ db err, o.initDatabase (sq none) = Except.ok db ∧
      o.loadSchema db = Except.error err ∧
      startNormal sq a o hasDock uiEnabled showUrl fs0 =
        ⟨[Event.initDatabase (sq none), Event.resolveMainDatabase db,
            Event.loadSchema db, Event.logError err],
          fs0, Except.error err, some db, none⟩) ∨
    (∃ db db2 err, o.initDatabase (sq none) = Except.ok db ∧
      o.loadSchema db = Except.ok db2 ∧
      o.loadZcl db2 a.zclPropertiesFile = Except.error err ∧
      startNormal sq a o hasDock uiEnabled showUrl fs0 =
        ⟨[Event.initDatabase (sq none), Event.resolveMainDatabase db,
            Event.loadSchema db, Event.loadZcl db2 a.zclPropertiesFile,
            Event.logError err],
          fs0, Except.error err, some db, none⟩) ∨
    (∃ db db2 c1 err, o.initDatabase (sq none) = Except.ok db ∧
      o.loadSchema db = Except.ok db2 ∧
      o.loadZcl db2 a.zclPropertiesFile = Except.ok c1 ∧
      o.loadTemplates c1.db a.genTemplateJsonFile = Except.error err ∧
      startNormal sq a o hasDock uiEnabled showUrl fs0 =
        ⟨[Event.initDatabase (sq none), Event.resolveMainDatabase db,
            Event.loadSchema db, Event.loadZcl db2 a.zclPropertiesFile,
            Event.loadTemplates c1.db a.genTemplateJsonFile, Event.logError err],
          fs0, Except.error err, some db, none⟩) ∨
    (∃ db db2 c1 c2, a.noServer = true ∧
      o.initDatabase (sq none) = Except.ok db ∧
      o.loadSchema db = Except.ok db2 ∧
      o.loadZcl db2 a.zclPropertiesFile = Except.ok c1 ∧
      o.loadTemplates c1.db a.genTemplateJsonFile = Except.ok c2 ∧
      startNormal sq a o hasDock uiEnabled showUrl fs0 =
        ⟨[Event.initDatabase (sq none), Event.resolveMainDatabase db,
            Event.loadSchema db, Event.loadZcl db2 a.zclPropertiesFile,
            Event.loadTemplates c1.db a.genTemplateJsonFile] ++
            uiEvents uiEnabled hasDock showUrl true o.httpServerPort ++
            [Event.appQuit],
          fs0, Except.ok (), some db, none⟩) ∨
    (∃ db db2 c1 c2 err, a.noServer = false ∧
      o.initDatabase (sq none) = Except.ok db ∧
      o.loadSchema db = Except.ok db2 ∧
      o.loadZcl db2 a.zclPropertiesFile = Except.ok c1 ∧
      o.loadTemplates c1.db a.genTemplateJsonFile = Except.ok c2 ∧
      o.initHttpServer c2.db a.httpPort = Except.error err ∧
      startNormal sq a o hasDock uiEnabled showUrl fs0 =
        ⟨[Event.initDatabase (sq none), Event.resolveMainDatabase db,
            Event.loadSchema db, Event.loadZcl db2 a.zclPropertiesFile,
            Event.loadTemplates c1.db a.genTemplateJsonFile,
            Event.initHttpServer c2.db a.httpPort, Event.logError err],
          fs0, Except.error err, some db, none⟩) ∨
    (∃ db db2 c1 c2, a.noServer = false ∧
      o.initDatabase (sq none) = Except.ok db ∧
      o.loadSchema db = Except.ok db2 ∧
      o.loadZcl db2 a.zclPropertiesFile = Except.ok c1 ∧
      o.loadTemplates c1.db a.genTemplateJsonFile = Except.ok c2 ∧
      o.initHttpServer c2.db a.httpPort = Except.ok () ∧
      startNormal sq a o hasDock uiEnabled showUrl fs0 =
        ⟨[Event.initDatabase (sq none), Event.resolveMainDatabase db,
            Event.loadSchema db, Event.loadZcl db2 a.zclPropertiesFile,
            Event.loadTemplates c1.db a.genTemplateJsonFile,
            Event.initHttpServer c2.db a.httpPort] ++
            uiEvents uiEnabled hasDock showUrl false o.httpServerPort,
          fs0, Except.ok (), some db, none⟩) := by
  simp only [startNormal, startNormalCore, withCatch]
  cases h1 : o.initDatabase (sq none) with
  | error err =>
    exact Or.inl ⟨err, by first | exact h1 | rfl, by simp [h1]⟩
  | ok db =>
    cases h2 : o.loadSchema db with
    | error err =>
      exact Or.inr (Or.inl ⟨db, err, by first | exact h1 | rfl,
        by first | exact h2 | rfl, by simp [h1, h2]⟩)
    | ok db2 =>
      cases h3 : o.loadZcl db2 a.zclPropertiesFile with
      | error err =>
        exact Or.inr (Or.inr (Or.inl ⟨db, db2, err, by first | exact h1 | rfl,
          by first | exact h2 | rfl, by first | exact h3 | rfl, by simp [h1, h2, h3]⟩))
      | ok c1 =>
        cases h4 : o.loadTemplates c1.db a.genTemplateJsonFile with
        | error err =>
          exact Or.inr (Or.inr (Or.inr (Or.inl
            ⟨db, db2, c1, err, by first | exact h1 | rfl, by first | exact h2 | rfl,
              by first | exact h3 | rfl, by first | exact h4 | rfl,
              by simp [h1, h2, h3, h4]⟩)))
        | ok c2 =>
          cases hns : a.noServer with
          | true =>
            exact Or.inr (Or.inr (Or.inr (Or.inr (Or.inl
              ⟨db, db2, c1, c2, by first | exact hns | rfl, by first | exact h1 | rfl,
                by first | exact h2 | rfl, by first | exact h3 | rfl,
                by first | exact h4 | rfl, by simp [h1, h2, h3, h4, hns]⟩))))
          | false =>
            cases h5 : o.initHttpServer c2.db a.httpPort with
            | error err =>
              exact Or.inr (Or.inr (Or.inr (Or.inr (Or.inr (Or.inl
                ⟨db, db2, c1, c2, err, by first | exact hns | rfl, by first | exact h1 | rfl,
                  by first | exact h2 | rfl, by first | exact h3 | rfl,
                  by first | exact h4 | rfl, by first | exact h5 | rfl,
                  by simp [h1, h2, h3, h4, h5, hns]⟩)))))
            | ok u =>
              cases u
              exact Or.inr (Or.inr (Or.inr (Or.inr (Or.inr (Or.inr
                ⟨db, db2, c1, c2, by first | exact hns | rfl, by first | exact h1 | rfl,
                  by first | exact h2 | rfl, by first | exact h3 | rfl,
                  by first | exact h4 | rfl, by first | exact h5 | rfl,
                  by simp [h1, h2, h3, h4, h5, hns]⟩)))))

/-- `clearDatabaseFile` when no live database file exists: only the existence
check happens. -/
theorem clearDatabaseFile_no_live (sq : Option String → String) (fs0 : FS)
    (h : fs0.existsSync (sq none) = false) :
    clearDatabaseFile sq fs0 =
      ⟨[Event.existsCheck (sq none) false], fs0, Except.ok (), none, none⟩ := by
  simp [clearDatabaseFile, h]

/-- `clearDatabaseFile` when a live file exists and no backup exists: warn and
rename the live file to the backup name. -/
theorem clearDatabaseFile_live_no_bak (sq : Option String → String) (fs0 : FS)
    (h : fs0.existsSync (sq none) = true)
    (hb : fs0.existsSync (sq none ++ "~") = false) :
    clearDatabaseFile sq fs0 =
      ⟨[Event.existsCheck (sq none) true, Event.existsCheck (sq none ++ "~") false,
          Event.logWarning ("Database restart requested, moving file: " ++ sq none
            ++ " to " ++ (sq none ++ "~")),
          Event.renameFile (sq none) (sq none ++ "~")],
        fs0.renameSync (sq none) (sq none ++ "~"), Except.ok (), none, none⟩ := by
  simp [clearDatabaseFile, h, hb]

/-- `clearDatabaseFile` when both a live file and a backup exist: delete the
old backup (warning), then rename the live file to the backup name (warning). -/
theorem clearDatabaseFile_live_bak (sq : Option String → String) (fs0 : FS)
    (h : fs0.existsSync (sq none) = true)
    (hb : fs0.existsSync (sq none ++ "~") = true) :
    clearDatabaseFile sq fs0 =
      ⟨[Event.existsCheck (sq none) true, Event.existsCheck (sq none ++ "~") true,
          Event.logWarning ("Deleting old backup file: " ++ (sq none ++ "~")),
          Event.unlinkFile (sq none ++ "~"),
          Event.logWarning ("Database restart requested, moving file: " ++ sq none
            ++ " to " ++ (sq none ++ "~")),
          Event.renameFile (sq none) (sq none ++ "~")],
        (fs0.unlinkSync (sq none ++ "~")).renameSync (sq none) (sq none ++ "~"),
        Except.ok (), none, none⟩ := by
  simp [clearDatabaseFile, h, hb]

@[simp]
theorem stageCalls_nil : stageCalls [] = [] := rfl

@[simp]
theorem stageCalls_append (a b : List Event) :
    stageCalls (a ++ b) = stageCalls a ++ stageCalls b := by
  simp [stageCalls]

@[simp]
theorem stageCalls_cons (e : Event) (l : List Event) :
    stageCalls (e :: l) = (stageCall e).toList ++ stageCalls l := by
  cases h : stageCall e <;> simp [stageCalls, List.filterMap_cons, h]

@[simp]
theorem stageCalls_logIf (b : Bool) (m : String) : stageCalls (logIf b m) = [] := by
  cases b <;> rfl

@[simp]
theorem stageCalls_quitIf (b : Bool) : stageCalls (quitIf b) = [] := by
  cases b <;> rfl

@[simp]
theorem stageCalls_genIntro (output gt zcl : String) (zapFile : Option String)
    (lg : Bool) : stageCalls (genIntro output gt zcl zapFile lg) = [] := by
  cases zapFile <;> cases lg <;> rfl

@[simp]
theorem stageCalls_scIntro (lg : Bool) : stageCalls (scIntro lg) = [] := by
  cases lg <;> rfl

/-- A concrete path assignment used by witness runs. -/
def sq0 : Option String → String
  | none => "zap.sqlite"
  | some s => "zap-" ++ s ++ ".sqlite"

/-- Concrete `args` values used by witness runs. -/
def args0 : Args := ⟨"zcl.properties", "gen-template.json", true, 9070⟩

/-- An oracle on which every collaborator call succeeds. -/
def okOracle : Oracle :=
  ⟨fun _ => Except.ok 1, fun d => Except.ok d, fun d _ => Except.ok ⟨d, 7⟩,
    fun d _ => Except.ok ⟨d, 9⟩, fun _ => Except.ok 3, fun _ s => Except.ok s,
    fun _ _ _ _ _ => Except.ok (), fun _ _ => Except.ok (),
    fun _ _ => Except.ok (), 80⟩

/-- An oracle on which the schema load fails with error 42. -/
def schemaFailOracle : Oracle :=
  ⟨fun _ => Except.ok 1, fun _ => Except.error 42, fun d _ => Except.ok ⟨d, 7⟩,
    fun d _ => Except.ok ⟨d, 9⟩, fun _ => Except.ok 3, fun _ s => Except.ok s,
    fun _ _ _ _ _ => Except.ok (), fun _ _ => Except.ok (),
    fun _ _ => Except.ok (), 80⟩

/-- C1: in every headless-generation run, the stage calls recorded in the
trace are the ensure-fresh deletion — present exactly when the configuration
sets `cleanDb` and the database file pre-exists, absent otherwise — followed,
in order, by a prefix of: open database, load schema, load domain metadata
from the caller-supplied path, load the template package from the
caller-supplied path, create a blank session, initialize the session package
set, generate and write into the caller-supplied directory; the prefix is the
whole order whenever the run succeeds.  The embedding is sequential, so no two
stage calls of one invocation overlap. -/
theorem C1_headless_stage_order (sq : Option String → String) (o : Oracle)
    (output gt zcl : String) (zapFile : Option String) (opts : GenOptions) (fs0 : FS) :
    ∃ rest,
      stageCalls (startGeneration sq o output gt zcl zapFile opts fs0).trace ++ rest =
        (if truthy opts.cleanDb && fs0.existsSync (sq (some "generate")) then
          [StageCall.ensureFresh (sq (some "generate"))]
         else []) ++ genCallList sq output gt zcl opts ∧
      (resultOk (startGeneration sq o output gt zcl zapFile opts fs0).result = true →
        rest = []) := by
  rcases startGeneration_shape sq o output gt zcl zapFile opts fs0 with
      ⟨err, h1, hr⟩ | ⟨db, err, h1, h2, hr⟩ | ⟨db, db2, err, h1, h2, h3, hr⟩ |
      ⟨db, db2, c1, err, h1, h2, h3, h4, hr⟩ |
      ⟨db, db2, c1, c2, err, h1, h2, h3, h4, h5, hr⟩ |
      ⟨db, db2, c1, c2, sid, err, h1, h2, h3, h4, h5, h6, hr⟩ |
      ⟨db, db2, c1, c2, sid, sid2, err, h1, h2, h3, h4, h5, h6, h7, hr⟩ |
      ⟨db, db2, c1, c2, sid, sid2, h1, h2, h3, h4, h5, h6, h7, hr⟩
  · exact ⟨[StageCall.loadSchema, StageCall.loadZcl zcl, StageCall.loadTemplates gt,
        StageCall.createSession, StageCall.initPackages,
        StageCall.generate output (truthy opts.log)],
      by rw [hr]
         rcases Bool.eq_false_or_eq_true (truthy opts.cleanDb) with hc | hc <;>
           rcases Bool.eq_false_or_eq_true
             (fs0.existsSync (sq (some "generate"))) with hx | hx <;>
           simp [genPre, hc, hx, ensureFresh, stageCall, genCallList],
      by rw [hr]; simp [resultOk]⟩
  · exact ⟨[StageCall.loadZcl zcl, StageCall.loadTemplates gt,
        StageCall.createSession, StageCall.initPackages,
        StageCall.generate output (truthy opts.log)],
      by rw [hr]
         rcases Bool.eq_false_or_eq_true (truthy opts.cleanDb) with hc | hc <;>
           rcases Bool.eq_false_or_eq_true
             (fs0.existsSync (sq (some "generate"))) with hx | hx <;>
           simp [genPre, hc, hx, ensureFresh, stageCall, genCallList],
      by rw [hr]; simp [resultOk]⟩
  · exact ⟨[StageCall.loadTemplates gt, StageCall.createSession,
        StageCall.initPackages, StageCall.generate output (truthy opts.log)],
      by rw [hr]
         rcases Bool.eq_false_or_eq_true (truthy opts.cleanDb) with hc | hc <;>
           rcases Bool.eq_false_or_eq_true
             (fs0.existsSync (sq (some "generate"))) with hx | hx <;>
           simp [genPre, hc, hx, ensureFresh, stageCall, genCallList],
      by rw [hr]; simp [resultOk]⟩
  · exact ⟨[StageCall.createSession, StageCall.initPackages,
        StageCall.generate output (truthy opts.log)],
      by rw [hr]
         rcases Bool.eq_false_or_eq_true (truthy opts.cleanDb) with hc | hc <;>
           rcases Bool.eq_false_or_eq_true
             (fs0.existsSync (sq (some "generate"))) with hx | hx <;>
           simp [genPre, hc, hx, ensureFresh, stageCall, genCallList],
      by rw [hr]; simp [resultOk]⟩
  · exact ⟨[StageCall.initPackages, StageCall.generate output (truthy opts.log)],
      by rw [hr]
         rcases Bool.eq_false_or_eq_true (truthy opts.cleanDb) with hc | hc <;>
           rcases Bool.eq_false_or_eq_true
             (fs0.existsSync (sq (some "generate"))) with hx | hx <;>
           simp [genPre, hc, hx, ensureFresh, stageCall, genCallList],
      by rw [hr]; simp [resultOk]⟩
  · exact ⟨[StageCall.generate output (truthy opts.log)],
      by rw [hr]
         rcases Bool.eq_false_or_eq_true (truthy opts.cleanDb) with hc | hc <;>
           rcases Bool.eq_false_or_eq_true
             (fs0.existsSync (sq (some "generate"))) with hx | hx <;>
           simp [genPre, hc, hx, ensureFresh, stageCall, genCallList],
      by rw [hr]; simp [resultOk]⟩
  · exact ⟨[],
      by rw [hr]
         rcases Bool.eq_false_or_eq_true (truthy opts.cleanDb) with hc | hc <;>
           rcases Bool.eq_false_or_eq_true
             (fs0.existsSync (sq (some "generate"))) with hx | hx <;>
           simp [genPre, hc, hx, ensureFresh, stageCall, genCallList],
      by rw [hr]; simp [resultOk]⟩
  · exact ⟨[],
      by rw [hr]
         rcases Bool.eq_false_or_eq_true (truthy opts.cleanDb) with hc | hc <;>
           rcases Bool.eq_false_or_eq_true
             (fs0.existsSync (sq (some "generate"))) with hx | hx <;>
           simp [genPre, hc, hx, ensureFresh, stageCall, genCallList],
      by rw [hr]; simp [resultOk]⟩

/-- C1 witness: a concrete default-options run with a pre-existing file on the
all-success oracle, instantiating the unconditional ordering theorem. -/
theorem C1_headless_stage_order_witness :
    ∃ rest,
      stageCalls (startGeneration sq0 okOracle "out" "gt.json" "zcl.properties"
          none defaultGenOptions [(sq0 (some "generate"), 5)]).trace ++ rest =
        (if truthy defaultGenOptions.cleanDb &&
            FS.existsSync [(sq0 (some "generate"), 5)] (sq0 (some "generate")) then
          [StageCall.ensureFresh (sq0 (some "generate"))]
         else []) ++
          genCallList sq0 "out" "gt.json" "zcl.properties" defaultGenOptions ∧
      (resultOk (startGeneration sq0 okOracle "out" "gt.json" "zcl.properties"
          none defaultGenOptions [(sq0 (some "generate"), 5)]).result = true →
        rest = []) :=
  C1_headless_stage_order sq0 okOracle "out" "gt.json" "zcl.properties"
    none defaultGenOptions [(sq0 (some "generate"), 5)]

@[simp]
theorem logErrorCount_nil : logErrorCount [] = 0 := rfl

@[simp]
theorem logErrorCount_cons (e : Event) (l : List Event) :
    logErrorCount (e :: l) = (if isLogError e then 1 else 0) + logErrorCount l := rfl

@[simp]
theorem logErrorCount_append (a b : List Event) :
    logErrorCount (a ++ b) = logErrorCount a + logErrorCount b := by
  induction a with
  | nil => simp
  | cons e t ih => simp [ih, Nat.add_assoc]

@[simp]
theorem logErrorCount_logIf (b : Bool) (m : String) :
    logErrorCount (logIf b m) = 0 := by
  cases b <;> rfl

@[simp]
theorem logErrorCount_quitIf (b : Bool) : logErrorCount (quitIf b) = 0 := by
  cases b <;> rfl

@[simp]
theorem logErrorCount_genIntro (output gt zcl : String) (zapFile : Option String)
    (lg : Bool) : logErrorCount (genIntro output gt zcl zapFile lg) = 0 := by
  cases zapFile <;> cases lg <;> rfl

@[simp]
theorem logErrorCount_scIntro (lg : Bool) : logErrorCount (scIntro lg) = 0 := by
  cases lg <;> rfl

@[simp]
theorem logErrorCount_ensureFresh (fs : FS) (p : String) (c : Bool) :
    logErrorCount (ensureFresh fs p c).2 = 0 := by
  cases c
  · rfl
  · by_cases hx : fs.existsSync p <;> simp [ensureFresh, hx, isLogError]

@[simp]
theorem logErrorCount_uiEvents (ui hd su ns : Bool) (port : Nat) :
    logErrorCount (uiEvents ui hd su ns port) = 0 := by
  cases ui <;> cases hd <;> cases su <;> cases ns <;> rfl

/-- C2: in every run mode, a stage failure short-circuits the invocation: the
diagnostic sink records the failure exactly once (never on success), the
recorded error is the last event of the trace — so no later stage produces any
effect — and the same error is re-raised as the settled result. -/
theorem C2_fail_fast_log_once (sq : Option String → String) (a : Args) (o : Oracle)
    (hasDock uiEnabled showUrl : Bool) (output gt zcl generationDir : String)
    (zapFile zclPath : Option String) (gopts : GenOptions) (sopts : SdkOptions)
    (copts : SelfCheckOptions) (fs0 : FS) :
    (logErrorCount (startNormal sq a o hasDock uiEnabled showUrl fs0).trace =
      (if resultOk (startNormal sq a o hasDock uiEnabled showUrl fs0).result then 0
       else 1)) ∧
    (resultOk (startNormal sq a o hasDock uiEnabled showUrl fs0).result = false →
      ∃ err, (startNormal sq a o hasDock uiEnabled showUrl fs0).result =
          Except.error err ∧
        (startNormal sq a o hasDock uiEnabled showUrl fs0).trace.reverse.head? =
          some (Event.logError err)) ∧
    (logErrorCount (startSelfCheck sq a o copts fs0).trace =
      (if resultOk (startSelfCheck sq a o copts fs0).result then 0 else 1)) ∧
    (resultOk (startSelfCheck sq a o copts fs0).result = false →
      ∃ err, (startSelfCheck sq a o copts fs0).result = Except.error err ∧
        (startSelfCheck sq a o copts fs0).trace.reverse.head? =
          some (Event.logError err)) ∧
    (logErrorCount (startGeneration sq o output gt zcl zapFile gopts fs0).trace =
      (if resultOk (startGeneration sq o output gt zcl zapFile gopts fs0).result
       then 0 else 1)) ∧
    (resultOk (startGeneration sq o output gt zcl zapFile gopts fs0).result = false →
      ∃ err, (startGeneration sq o output gt zcl zapFile gopts fs0).result =
          Except.error err ∧
        (startGeneration sq o output gt zcl zapFile gopts fs0).trace.reverse.head? =
          some (Event.logError err)) ∧
    (logErrorCount (startSdkGeneration sq a o generationDir zclPath sopts fs0).trace =
      (if resultOk (startSdkGeneration sq a o generationDir zclPath sopts fs0).result
       then 0 else 1)) ∧
    (resultOk (startSdkGeneration sq a o generationDir zclPath sopts fs0).result =
        false →
      ∃ err, (startSdkGeneration sq a o generationDir zclPath sopts fs0).result =
          Except.error err ∧
        (startSdkGeneration sq a o generationDir zclPath sopts fs0).trace.reverse.head? =
          some (Event.logError err)) := by
  refine ⟨?_, ?_, ?_, ?_, ?_, ?_, ?_, ?_⟩
  · rcases startNormal_shape sq a o hasDock uiEnabled showUrl fs0 with
        ⟨err, h1, hr⟩ | ⟨db, err, h1, h2, hr⟩ | ⟨db, db2, err, h1, h2, h3, hr⟩ |
        ⟨db, db2, c1, err, h1, h2, h3, h4, hr⟩ |
        ⟨db, db2, c1, c2, hns, h1, h2, h3, h4, hr⟩ |
        ⟨db, db2, c1, c2, err, hns, h1, h2, h3, h4, h5, hr⟩ |
        ⟨db, db2, c1, c2, hns, h1, h2, h3, h4, h5, hr⟩ <;>
      rw [hr] <;> simp [resultOk, isLogError]
  · rcases startNormal_shape sq a o hasDock uiEnabled showUrl fs0 with
        ⟨err, h1, hr⟩ | ⟨db, err, h1, h2, hr⟩ | ⟨db, db2, err, h1, h2, h3, hr⟩ |
        ⟨db, db2, c1, err, h1, h2, h3, h4, hr⟩ |
        ⟨db, db2, c1, c2, hns, h1, h2, h3, h4, hr⟩ |
        ⟨db, db2, c1, c2, err, hns, h1, h2, h3, h4, h5, hr⟩ |
        ⟨db, db2, c1, c2, hns, h1, h2, h3, h4, h5, hr⟩ <;>
      rw [hr] <;> simp [resultOk]
  · rcases startSelfCheck_shape sq a o copts fs0 with
        ⟨err, h1, hr⟩ | ⟨db, err, h1, h2, hr⟩ | ⟨db, db2, err, h1, h2, h3, hr⟩ |
        ⟨db, db2, c1, err, h1, h2, h3, h4, hr⟩ |
        ⟨db, db2, c1, c2, h1, h2, h3, h4, hr⟩ <;>
      rw [hr] <;> simp [scPre, resultOk, isLogError]
  · rcases startSelfCheck_shape sq a o copts fs0 with
        ⟨err, h1, hr⟩ | ⟨db, err, h1, h2, hr⟩ | ⟨db, db2, err, h1, h2, h3, hr⟩ |
        ⟨db, db2, c1, err, h1, h2, h3, h4, hr⟩ |
        ⟨db, db2, c1, c2, h1, h2, h3, h4, hr⟩ <;>
      rw [hr] <;> simp [scPre, resultOk]
  · rcases startGeneration_shape sq o output gt zcl zapFile gopts fs0 with
        ⟨err, h1, hr⟩ | ⟨db, err, h1, h2, hr⟩ | ⟨db, db2, err, h1, h2, h3, hr⟩ |
        ⟨db, db2, c1, err, h1, h2, h3, h4, hr⟩ |
        ⟨db, db2, c1, c2, err, h1, h2, h3, h4, h5, hr⟩ |
        ⟨db, db2, c1, c2, sid, err, h1, h2, h3, h4, h5, h6, hr⟩ |
        ⟨db, db2, c1, c2, sid, sid2, err, h1, h2, h3, h4, h5, h6, h7, hr⟩ |
        ⟨db, db2, c1, c2, sid, sid2, h1, h2, h3, h4, h5, h6, h7, hr⟩ <;>
      rw [hr] <;> simp [genPre, resultOk, isLogError]
  · rcases startGeneration_shape sq o output gt zcl zapFile gopts fs0 with
        ⟨err, h1, hr⟩ | ⟨db, err, h1, h2, hr⟩ | ⟨db, db2, err, h1, h2, h3, hr⟩ |
        ⟨db, db2, c1, err, h1, h2, h3, h4, hr⟩ |
        ⟨db, db2, c1, c2, err, h1, h2, h3, h4, h5, hr⟩ |
        ⟨db, db2, c1, c2, sid, err, h1, h2, h3, h4, h5, h6, hr⟩ |
        ⟨db, db2, c1, c2, sid, sid2, err, h1, h2, h3, h4, h5, h6, h7, hr⟩ |
        ⟨db, db2, c1, c2, sid, sid2, h1, h2, h3, h4, h5, h6, h7, hr⟩ <;>
      rw [hr] <;> simp [genPre, resultOk]
  · rcases startSdkGeneration_shape sq a o generationDir zclPath sopts fs0 with
        ⟨err, h1, hr⟩ | ⟨db, err, h1, h2, hr⟩ | ⟨db, db2, err, h1, h2, h3, hr⟩ |
        ⟨db, db2, c1, err, h1, h2, h3, h4, hr⟩ |
        ⟨db, db2, c1, h1, h2, h3, h4, hr⟩ <;>
      rw [hr] <;> simp [sdkPre, resultOk, isLogError]
  · rcases startSdkGeneration_shape sq a o generationDir zclPath sopts fs0 with
        ⟨err, h1, hr⟩ | ⟨db, err, h1, h2, hr⟩ | ⟨db, db2, err, h1, h2, h3, hr⟩ |
        ⟨db, db2, c1, err, h1, h2, h3, h4, hr⟩ |
        ⟨db, db2, c1, h1, h2, h3, h4, hr⟩ <;>
      rw [hr] <;> simp [sdkPre, resultOk]

/-- C2 witness: a concrete failing self-check run (the schema load fails with
error 42) discharging the failure hypothesis of the fail-fast theorem. -/
theorem C2_fail_fast_log_once_witness :
    resultOk (startSelfCheck sq0 args0 schemaFailOracle
        defaultSelfCheckOptions []).result = false ∧
    ∃ err, (startSelfCheck sq0 args0 schemaFailOracle
          defaultSelfCheckOptions []).result = Except.error err ∧
      (startSelfCheck sq0 args0 schemaFailOracle
          defaultSelfCheckOptions []).trace.reverse.head? =
        some (Event.logError err) :=
  ⟨by decide,
    (C2_fail_fast_log_once sq0 args0 schemaFailOracle false false false
        "out" "gt" "zcl" "dir" none none defaultGenOptions defaultSdkOptions
        defaultSelfCheckOptions []).2.2.2.1 (by decide)⟩

theorem FS.lookup_renameSync_src (fs : FS) (src dst : String) (c : Nat)
    (hne : src ≠ dst) (hc : fs.lookup src = some c) :
    (fs.renameSync src dst).lookup src = none := by
  have h1 : ((fs.unlinkSync src).unlinkSync dst).lookup src =
      (fs.unlinkSync src).lookup src :=
    FS.lookup_unlinkSync_ne (fs.unlinkSync src) src dst hne
  simp [FS.renameSync, hc, FS.lookup, Ne.symm hne, h1, FS.lookup_unlinkSync_self]

theorem FS.lookup_renameSync_dst (fs : FS) (src dst : String) (c : Nat)
    (hc : fs.lookup src = some c) :
    (fs.renameSync src dst).lookup dst = some c := by
  simp [FS.renameSync, hc, FS.lookup]

@[simp]
theorem appQuit_mem_quitIf (b : Bool) : (Event.appQuit ∈ quitIf b) ↔ b = true := by
  cases b <;> simp [quitIf]

@[simp]
theorem appQuit_notMem_genIntro (output gt zcl : String) (zapFile : Option String)
    (lg : Bool) : Event.appQuit ∉ genIntro output gt zcl zapFile lg := by
  cases zapFile <;> cases lg <;> simp [genIntro, logIf]

@[simp]
theorem appQuit_notMem_scIntro (lg : Bool) : Event.appQuit ∉ scIntro lg := by
  cases lg <;> simp [scIntro, logIf]

@[simp]
theorem appQuit_notMem_ensureFresh (fs : FS) (p : String) (c : Bool) :
    Event.appQuit ∉ (ensureFresh fs p c).2 := by
  cases c
  · simp [ensureFresh]
  · by_cases hx : fs.existsSync p <;> simp [ensureFresh, hx]

@[simp]
theorem appQuit_notMem_uiEvents (ui hd su ns : Bool) (port : Nat) :
    Event.appQuit ∉ uiEvents ui hd su ns port := by
  cases ui <;> cases hd <;> cases su <;> cases ns <;> simp [uiEvents]

@[simp]
theorem printUrl_mem_uiEvents (q : Nat) (ui hd su ns : Bool) (port : Nat) :
    (Event.printUrl q ∈ uiEvents ui hd su ns port) ↔
      (ui = false ∧ su = true ∧ ns = false ∧ q = port) := by
  cases ui <;> cases hd <;> cases su <;> cases ns <;> simp [uiEvents]

@[simp]
theorem generate_notMem_genIntro (d s pid : Nat) (od : String) (lg : Bool)
    (output gt zcl : String) (zapFile : Option String) (lg2 : Bool) :
    Event.generateAndWriteFiles d s pid od lg ∉ genIntro output gt zcl zapFile lg2 := by
  cases zapFile <;> cases lg2 <;> simp [genIntro, logIf]

@[simp]
theorem generate_notMem_ensureFresh (d s pid : Nat) (od : String) (lg : Bool)
    (fs : FS) (p : String) (c : Bool) :
    Event.generateAndWriteFiles d s pid od lg ∉ (ensureFresh fs p c).2 := by
  cases c
  · simp [ensureFresh]
  · by_cases hx : fs.existsSync p <;> simp [ensureFresh, hx]

@[simp]
theorem generate_notMem_quitIf (d s pid : Nat) (od : String) (lg : Bool) (b : Bool) :
    Event.generateAndWriteFiles d s pid od lg ∉ quitIf b := by
  cases b <;> simp [quitIf]

@[simp]
theorem unlinkFile_notMem_genIntro (p : String) (output gt zcl : String)
    (zapFile : Option String) (lg : Bool) :
    Event.unlinkFile p ∉ genIntro output gt zcl zapFile lg := by
  cases zapFile <;> cases lg <;> simp [genIntro, logIf]

@[simp]
theorem unlinkFile_notMem_quitIf (p : String) (b : Bool) :
    Event.unlinkFile p ∉ quitIf b := by
  cases b <;> simp [quitIf]

/-- Every `startGeneration` run has final file system `genFs` and a trace that
begins with `genPre`. -/
theorem startGeneration_pre (sq : Option String → String) (o : Oracle)
    (output gt zcl : String) (zapFile : Option String) (opts : GenOptions) (fs0 : FS) :
    (startGeneration sq o output gt zcl zapFile opts fs0).fs = genFs sq opts fs0 ∧
    ∃ t, (startGeneration sq o output gt zcl zapFile opts fs0).trace =
      genPre sq output gt zcl zapFile opts fs0 ++ t := by
  rcases startGeneration_shape sq o output gt zcl zapFile opts fs0 with
      ⟨err, h1, hr⟩ | ⟨db, err, h1, h2, hr⟩ | ⟨db, db2, err, h1, h2, h3, hr⟩ |
      ⟨db, db2, c1, err, h1, h2, h3, h4, hr⟩ |
      ⟨db, db2, c1, c2, err, h1, h2, h3, h4, h5, hr⟩ |
      ⟨db, db2, c1, c2, sid, err, h1, h2, h3, h4, h5, h6, hr⟩ |
      ⟨db, db2, c1, c2, sid, sid2, err, h1, h2, h3, h4, h5, h6, h7, hr⟩ |
      ⟨db, db2, c1, c2, sid, sid2, h1, h2, h3, h4, h5, h6, h7, hr⟩ <;>
    rw [hr] <;> first
      | exact ⟨rfl, ⟨_, rfl⟩⟩
      | exact ⟨rfl, ⟨_, by rw [List.append_assoc]⟩⟩

/-- Every `startSdkGeneration` run has final file system `sdkFs` and a trace
that begins with `sdkPre`. -/
theorem startSdkGeneration_pre (sq : Option String → String) (a : Args) (o : Oracle)
    (generationDir : String) (zclPath : Option String) (opts : SdkOptions) (fs0 : FS) :
    (startSdkGeneration sq a o generationDir zclPath opts fs0).fs = sdkFs sq opts fs0 ∧
    ∃ t, (startSdkGeneration sq a o generationDir zclPath opts fs0).trace =
      sdkPre sq opts fs0 ++ t := by
  rcases startSdkGeneration_shape sq a o generationDir zclPath opts fs0 with
      ⟨err, h1, hr⟩ | ⟨db, err, h1, h2, hr⟩ | ⟨db, db2, err, h1, h2, h3, hr⟩ |
      ⟨db, db2, c1, err, h1, h2, h3, h4, hr⟩ |
      ⟨db, db2, c1, h1, h2, h3, h4, hr⟩ <;>
    rw [hr] <;> first
      | exact ⟨rfl, ⟨_, rfl⟩⟩
      | exact ⟨rfl, ⟨_, by rw [List.append_assoc]⟩⟩

/-- C3: in `startGeneration` and `startSdkGeneration`, when `cleanDb` is
truthy and the database file exists it is deleted, with the deletion event
immediately preceding the database-open event, and the file is absent for the
rest of the run; when `cleanDb` is falsy the file system is left untouched and
the open is called on the same path. -/
theorem C3_clean_before_open (sq : Option String → String) (a : Args) (o : Oracle)
    (output gt zcl generationDir : String) (zapFile zclPath : Option String)
    (gopts : GenOptions) (sopts : SdkOptions) (fs0 : FS) :
    (truthy gopts.cleanDb = true → fs0.existsSync (sq (some "generate")) = true →
      (startGeneration sq o output gt zcl zapFile gopts fs0).fs.existsSync
          (sq (some "generate")) = false ∧
      ∃ t, (startGeneration sq o output gt zcl zapFile gopts fs0).trace =
        genIntro output gt zcl zapFile (truthy gopts.log) ++
          [Event.existsCheck (sq (some "generate")) true,
           Event.unlinkFile (sq (some "generate")),
           Event.initDatabase (sq (some "generate"))] ++ t) ∧
    (truthy gopts.cleanDb = false →
      (startGeneration sq o output gt zcl zapFile gopts fs0).fs = fs0 ∧
      ∃ t, (startGeneration sq o output gt zcl zapFile gopts fs0).trace =
        genIntro output gt zcl zapFile (truthy gopts.log) ++
          [Event.initDatabase (sq (some "generate"))] ++ t) ∧
    (truthy sopts.cleanDb = true → fs0.existsSync (sq (some "sdk-regen")) = true →
      (startSdkGeneration sq a o generationDir zclPath sopts fs0).fs.existsSync
          (sq (some "sdk-regen")) = false ∧
      ∃ t, (startSdkGeneration sq a o generationDir zclPath sopts fs0).trace =
        Event.logInfo "Start SDK generation..." ::
          [Event.existsCheck (sq (some "sdk-regen")) true,
           Event.unlinkFile (sq (some "sdk-regen")),
           Event.initDatabase (sq (some "sdk-regen"))] ++ t) ∧
    (truthy sopts.cleanDb = false →
      (startSdkGeneration sq a o generationDir zclPath sopts fs0).fs = fs0 ∧
      ∃ t, (startSdkGeneration sq a o generationDir zclPath sopts fs0).trace =
        Event.logInfo "Start SDK generation..." ::
          [Event.initDatabase (sq (some "sdk-regen"))] ++ t) := by
  obtain ⟨hgfs, tg, hgt⟩ := startGeneration_pre sq o output gt zcl zapFile gopts fs0
  obtain ⟨hsfs, ts, hst⟩ :=
    startSdkGeneration_pre sq a o generationDir zclPath sopts fs0
  refine ⟨?_, ?_, ?_, ?_⟩
  · intro hc hx
    refine ⟨?_, ⟨tg, ?_⟩⟩
    · rw [hgfs]
      simp [genFs, hc, ensureFresh, hx, FS.existsSync_unlinkSync_self]
    · rw [hgt]
      simp [genPre, hc, ensureFresh, hx]
  · intro hc
    refine ⟨?_, ⟨tg, ?_⟩⟩
    · rw [hgfs]
      simp [genFs, hc, ensureFresh]
    · rw [hgt]
      simp [genPre, hc, ensureFresh]
  · intro hc hx
    refine ⟨?_, ⟨ts, ?_⟩⟩
    · rw [hsfs]
      simp [sdkFs, hc, ensureFresh, hx, FS.existsSync_unlinkSync_self]
    · rw [hst]
      simp [sdkPre, hc, ensureFresh, hx]
  · intro hc
    refine ⟨?_, ⟨ts, ?_⟩⟩
    · rw [hsfs]
      simp [sdkFs, hc, ensureFresh]
    · rw [hst]
      simp [sdkPre, hc, ensureFresh]

/-- C3 witness: a clean-database generation run on a pre-existing file (the
file is gone afterwards) and a no-clean SDK run (the file system is untouched),
each at concrete inputs. -/
theorem C3_clean_before_open_witness :
    (truthy defaultGenOptions.cleanDb = true ∧
      FS.existsSync [(sq0 (some "generate"), 5)] (sq0 (some "generate")) = true ∧
      (startGeneration sq0 okOracle "out" "gt" "zcl" none defaultGenOptions
          [(sq0 (some "generate"), 5)]).fs.existsSync (sq0 (some "generate")) =
        false) ∧
    (truthy (⟨some true, some false⟩ : SdkOptions).cleanDb = false ∧
      (startSdkGeneration sq0 args0 okOracle "dir" none ⟨some true, some false⟩
          [(sq0 (some "sdk-regen"), 5)]).fs = [(sq0 (some "sdk-regen"), 5)]) :=
  ⟨⟨by decide, by decide,
      ((C3_clean_before_open sq0 args0 okOracle "out" "gt" "zcl" "dir" none none
          defaultGenOptions defaultSdkOptions [(sq0 (some "generate"), 5)]).1
        (by decide) (by decide)).1⟩,
    ⟨by decide,
      ((C3_clean_before_open sq0 args0 okOracle "out" "gt" "zcl" "dir" none none
          defaultGenOptions ⟨some true, some false⟩ [(sq0 (some "sdk-regen"), 5)]).2.2.2
        (by decide)).1⟩⟩

/-- Number of landing-page url lines (`printUrl`) in a trace. -/
def printUrlCount : List Event → Nat
  | [] => 0
  | Event.printUrl _ :: t => 1 + printUrlCount t
  | _ :: t => printUrlCount t

/-- C4 counterexample: an interactive run configured without a serving
interface (`noServer`) and with `showUrl` set succeeds and quits, yet no
landing-page notice is ever printed before quitting — the notice is printed
only when a server is running, contradicting the claim that it is (optionally)
printed before quitting. -/
theorem C4_counterexample :
    resultOk (startNormal sq0 args0 okOracle false false true []).result = true ∧
    Event.appQuit ∈ (startNormal sq0 args0 okOracle false false true []).trace ∧
    printUrlCount (startNormal sq0 args0 okOracle false false true []).trace = 0 := by
  decide

/-- C4 amended: on success of an interactive run the process quits exactly
when `args.noServer` is set; the landing-page notice is printed exactly when
the UI is disabled, `showUrl` is set and a server is running (`noServer`
false) — hence never before quitting — and otherwise the process stays
resident. -/
theorem C4_interactive_termination (sq : Option String → String) (a : Args)
    (o : Oracle) (hasDock uiEnabled showUrl : Bool) (fs0 : FS)
    (hok : resultOk (startNormal sq a o hasDock uiEnabled showUrl fs0).result = true) :
    ((Event.appQuit ∈ (startNormal sq a o hasDock uiEnabled showUrl fs0).trace) ↔
      a.noServer = true) ∧
    (∀ port, Event.printUrl port ∈
        (startNormal sq a o hasDock uiEnabled showUrl fs0).trace →
      uiEnabled = false ∧ showUrl = true ∧ a.noServer = false ∧
        port = o.httpServerPort) ∧
    (uiEnabled = false → showUrl = true → a.noServer = false →
      Event.printUrl o.httpServerPort ∈
        (startNormal sq a o hasDock uiEnabled showUrl fs0).trace) := by
  rcases startNormal_shape sq a o hasDock uiEnabled showUrl fs0 with
      ⟨err, h1, hr⟩ | ⟨db, err, h1, h2, hr⟩ | ⟨db, db2, err, h1, h2, h3, hr⟩ |
      ⟨db, db2, c1, err, h1, h2, h3, h4, hr⟩ |
      ⟨db, db2, c1, c2, hns, h1, h2, h3, h4, hr⟩ |
      ⟨db, db2, c1, c2, err, hns, h1, h2, h3, h4, h5, hr⟩ |
      ⟨db, db2, c1, c2, hns, h1, h2, h3, h4, h5, hr⟩
  · rw [hr] at hok; simp [resultOk] at hok
  · rw [hr] at hok; simp [resultOk] at hok
  · rw [hr] at hok; simp [resultOk] at hok
  · rw [hr] at hok; simp [resultOk] at hok
  · rw [hr]; simp [hns]
  · rw [hr] at hok; simp [resultOk] at hok
  · rw [hr]; simp [hns]; tauto

/-- C4 witness: on a concrete successful no-server run, quitting is equivalent
to the no-server configuration. -/
theorem C4_interactive_termination_witness :
    (Event.appQuit ∈ (startNormal sq0 args0 okOracle false false true []).trace) ↔
      args0.noServer = true :=
  (C4_interactive_termination sq0 args0 okOracle false false true [] (by decide)).1

/-- C5 counterexample: `startSelfCheck` ignores any `quit` property of its
options object: a successful self-check run passed `quit: false` still calls
`app.quit()`, so termination is not "exactly when the quit flag is true". -/
theorem C5_counterexample :
    resultOk (startSelfCheck sq0 args0 okOracle ⟨some true, some false⟩ []).result =
      true ∧
    truthy (SelfCheckOptions.quit ⟨some true, some false⟩) = false ∧
    Event.appQuit ∈
      (startSelfCheck sq0 args0 okOracle ⟨some true, some false⟩ []).trace := by
  decide

/-- C5 amended: on success, `startGeneration` and `startSdkGeneration` call
`app.quit()` exactly when their options' `quit` field is truthy, and both
default options objects set `quit` to `true`; `startSelfCheck` always calls
`app.quit()` on success, regardless of its options. -/
theorem C5_quit_flag (sq : Option String → String) (a : Args) (o : Oracle)
    (output gt zcl generationDir : String) (zapFile zclPath : Option String)
    (gopts : GenOptions) (sopts : SdkOptions) (copts : SelfCheckOptions) (fs0 : FS) :
    (resultOk (startGeneration sq o output gt zcl zapFile gopts fs0).result = true →
      ((Event.appQuit ∈ (startGeneration sq o output gt zcl zapFile gopts fs0).trace) ↔
        truthy gopts.quit = true)) ∧
    (resultOk (startSdkGeneration sq a o generationDir zclPath sopts fs0).result =
        true →
      ((Event.appQuit ∈
          (startSdkGeneration sq a o generationDir zclPath sopts fs0).trace) ↔
        truthy sopts.quit = true)) ∧
    (resultOk (startSelfCheck sq a o copts fs0).result = true →
      Event.appQuit ∈ (startSelfCheck sq a o copts fs0).trace) ∧
    truthy defaultGenOptions.quit = true ∧
    truthy defaultSdkOptions.quit = true := by
  refine ⟨?_, ?_, ?_, by decide, by decide⟩
  · rcases startGeneration_shape sq o output gt zcl zapFile gopts fs0 with
        ⟨err, h1, hr⟩ | ⟨db, err, h1, h2, hr⟩ | ⟨db, db2, err, h1, h2, h3, hr⟩ |
        ⟨db, db2, c1, err, h1, h2, h3, h4, hr⟩ |
        ⟨db, db2, c1, c2, err, h1, h2, h3, h4, h5, hr⟩ |
        ⟨db, db2, c1, c2, sid, err, h1, h2, h3, h4, h5, h6, hr⟩ |
        ⟨db, db2, c1, c2, sid, sid2, err, h1, h2, h3, h4, h5, h6, h7, hr⟩ |
        ⟨db, db2, c1, c2, sid, sid2, h1, h2, h3, h4, h5, h6, h7, hr⟩ <;>
      rw [hr] <;> simp [resultOk, genPre]
  · rcases startSdkGeneration_shape sq a o generationDir zclPath sopts fs0 with
        ⟨err, h1, hr⟩ | ⟨db, err, h1, h2, hr⟩ | ⟨db, db2, err, h1, h2, h3, hr⟩ |
        ⟨db, db2, c1, err, h1, h2, h3, h4, hr⟩ |
        ⟨db, db2, c1, h1, h2, h3, h4, hr⟩ <;>
      rw [hr] <;> simp [resultOk, sdkPre]
  · rcases startSelfCheck_shape sq a o copts fs0 with
        ⟨err, h1, hr⟩ | ⟨db, err, h1, h2, hr⟩ | ⟨db, db2, err, h1, h2, h3, hr⟩ |
        ⟨db, db2, c1, err, h1, h2, h3, h4, hr⟩ |
        ⟨db, db2, c1, c2, h1, h2, h3, h4, hr⟩ <;>
      rw [hr] <;> simp [resultOk, scPre]

/-- C5 witness: on a concrete successful default-options generation run, the
quit call is equivalent to the default (truthy) quit flag. -/
theorem C5_quit_flag_witness :
    (Event.appQuit ∈
        (startGeneration sq0 okOracle "out" "gt" "zcl" none defaultGenOptions
          []).trace) ↔
      truthy defaultGenOptions.quit = true :=
  (C5_quit_flag sq0 args0 okOracle "out" "gt" "zcl" "dir" none none
      defaultGenOptions defaultSdkOptions defaultSelfCheckOptions []).1 (by decide)

/-- C6: calling `clearDatabaseFile` on a live database file never loses data:
afterwards the live path is empty and the backup path holds the prior content;
when an old backup existed it was deleted first with a warning; and a second
call with no new live file is a no-op (it only performs the existence check
and leaves the file system unchanged). -/
theorem C6_backup_safety (sq : Option String → String) (fs0 : FS) (c : Nat)
    (h : fs0.lookup (sq none) = some c) :
    (clearDatabaseFile sq fs0).fs.lookup (sq none) = none ∧
    (clearDatabaseFile sq fs0).fs.lookup (sq none ++ "~") = some c ∧
    (fs0.existsSync (sq none ++ "~") = true →
      Event.logWarning ("Deleting old backup file: " ++ (sq none ++ "~")) ∈
        (clearDatabaseFile sq fs0).trace ∧
      Event.unlinkFile (sq none ++ "~") ∈ (clearDatabaseFile sq fs0).trace) ∧
    clearDatabaseFile sq (clearDatabaseFile sq fs0).fs =
      ⟨[Event.existsCheck (sq none) false], (clearDatabaseFile sq fs0).fs,
        Except.ok (), none, none⟩ := by
  have hex : fs0.existsSync (sq none) = true := by simp [FS.existsSync, h]
  have hne : sq none ≠ sq none ++ "~" := Ne.symm (append_tilde_ne (sq none))
  by_cases hb : fs0.existsSync (sq none ++ "~")
  · rw [clearDatabaseFile_live_bak sq fs0 hex hb]
    have hc2 : (fs0.unlinkSync (sq none ++ "~")).lookup (sq none) = some c := by
      rw [FS.lookup_unlinkSync_ne _ _ _ hne]
      exact h
    have l1 : ((fs0.unlinkSync (sq none ++ "~")).renameSync (sq none)
        (sq none ++ "~")).lookup (sq none) = none :=
      FS.lookup_renameSync_src _ _ _ c hne hc2
    have l2 : ((fs0.unlinkSync (sq none ++ "~")).renameSync (sq none)
        (sq none ++ "~")).lookup (sq none ++ "~") = some c :=
      FS.lookup_renameSync_dst _ _ _ c hc2
    refine ⟨l1, l2, fun _ => ⟨by simp, by simp⟩, ?_⟩
    exact clearDatabaseFile_no_live sq _ (by simp [FS.existsSync, l1])
  · have hbf : fs0.existsSync (sq none ++ "~") = false := by
      simpa using hb
    rw [clearDatabaseFile_live_no_bak sq fs0 hex hbf]
    have l1 : (fs0.renameSync (sq none) (sq none ++ "~")).lookup (sq none) = none :=
      FS.lookup_renameSync_src _ _ _ c hne h
    have l2 : (fs0.renameSync (sq none) (sq none ++ "~")).lookup
        (sq none ++ "~") = some c :=
      FS.lookup_renameSync_dst _ _ _ c h
    refine ⟨l1, l2, fun hcontra => by rw [hbf] at hcontra; exact absurd hcontra (by simp), ?_⟩
    exact clearDatabaseFile_no_live sq _ (by simp [FS.existsSync, l1])

/-- C6 witness: clearing a concrete file system holding a live database file
and a stale backup empties the live path and moves the content to the backup. -/
theorem C6_backup_safety_witness :
    (clearDatabaseFile sq0 [("zap.sqlite", 5), ("zap.sqlite~", 9)]).fs.lookup
        (sq0 none) = none ∧
    (clearDatabaseFile sq0 [("zap.sqlite", 5), ("zap.sqlite~", 9)]).fs.lookup
        (sq0 none ++ "~") = some 5 :=
  ⟨(C6_backup_safety sq0 [("zap.sqlite", 5), ("zap.sqlite~", 9)] 5 (by decide)).1,
    (C6_backup_safety sq0 [("zap.sqlite", 5), ("zap.sqlite~", 9)] 5 (by decide)).2.1⟩

/-- C7: in `clearDatabaseFile`, a rename only ever moves the live database
file to the backup name, it happens only when the live file existed, and in
the trace it is strictly preceded by both existence checks (live and backup)
and, when an old backup existed, by its deletion. -/
theorem C7_rename_after_checks (sq : Option String → String) (fs0 : FS)
    (src dst : String)
    (hm : Event.renameFile src dst ∈ (clearDatabaseFile sq fs0).trace) :
    src = sq none ∧ dst = sq none ++ "~" ∧
    fs0.existsSync (sq none) = true ∧
    ∃ pre post, (clearDatabaseFile sq fs0).trace =
        pre ++ Event.renameFile src dst :: post ∧
      Event.existsCheck (sq none) true ∈ pre ∧
      Event.existsCheck (sq none ++ "~") (fs0.existsSync (sq none ++ "~")) ∈ pre ∧
      (fs0.existsSync (sq none ++ "~") = true →
        Event.unlinkFile (sq none ++ "~") ∈ pre) := by
  by_cases hex : fs0.existsSync (sq none)
  · by_cases hb : fs0.existsSync (sq none ++ "~")
    · rw [clearDatabaseFile_live_bak sq fs0 hex hb] at hm ⊢
      simp at hm
      obtain ⟨rfl, rfl⟩ := hm
      refine ⟨rfl, rfl, hex,
        [Event.existsCheck (sq none) true, Event.existsCheck (sq none ++ "~") true,
         Event.logWarning ("Deleting old backup file: " ++ (sq none ++ "~")),
         Event.unlinkFile (sq none ++ "~"),
         Event.logWarning ("Database restart requested, moving file: " ++ sq none
            ++ " to " ++ (sq none ++ "~"))],
        [], by simp, by simp, by simp [hb], fun _ => by simp⟩
    · have hbf : fs0.existsSync (sq none ++ "~") = false := by simpa using hb
      rw [clearDatabaseFile_live_no_bak sq fs0 hex hbf] at hm ⊢
      simp at hm
      obtain ⟨rfl, rfl⟩ := hm
      refine ⟨rfl, rfl, hex,
        [Event.existsCheck (sq none) true, Event.existsCheck (sq none ++ "~") false,
         Event.logWarning ("Database restart requested, moving file: " ++ sq none
            ++ " to " ++ (sq none ++ "~"))],
        [], by simp, by simp, by simp [hbf], fun hcontra => by
          rw [hbf] at hcontra; exact absurd hcontra (by simp)⟩
  · have hexf : fs0.existsSync (sq none) = false := by simpa using hex
    rw [clearDatabaseFile_no_live sq fs0 hexf] at hm
    simp at hm

/-- C7 witness: on a concrete file system with a live database file, the
recorded rename implies the live file existed at entry. -/
theorem C7_rename_after_checks_witness :
    FS.existsSync [("zap.sqlite", 5)] (sq0 none) = true :=
  (C7_rename_after_checks sq0 [("zap.sqlite", 5)] "zap.sqlite" "zap.sqlite~"
      (by decide)).2.2.1

@[simp]
theorem scProgressEvents_nil : scProgressEvents [] = [] := rfl

@[simp]
theorem scProgressEvents_append (a b : List Event) :
    scProgressEvents (a ++ b) = scProgressEvents a ++ scProgressEvents b := by
  induction a with
  | nil => rfl
  | cons e t ih =>
    cases e <;> simp only [List.cons_append, scProgressEvents, List.append_eq] <;>
      first
        | exact ih
        | (split <;> simp [ih])

@[simp]
theorem scProgressEvents_scIntro (lg : Bool) : scProgressEvents (scIntro lg) = [] := by
  cases lg <;> rfl

@[simp]
theorem scProgressEvents_ensureFresh (fs : FS) (p : String) (c : Bool) :
    scProgressEvents (ensureFresh fs p c).2 = [] := by
  cases c
  · rfl
  · by_cases hx : fs.existsSync p <;> simp [ensureFresh, hx, scProgressEvents]

/-- The settled result and the progress lines of a self-check run do not
depend on the initial file system: any leftover database file is deleted
before the pipeline starts. -/
theorem startSelfCheck_fs_irrelevant (sq : Option String → String) (a : Args)
    (o : Oracle) (opts : SelfCheckOptions) (fs1 fs2 : FS) :
    (startSelfCheck sq a o opts fs1).result = (startSelfCheck sq a o opts fs2).result ∧
    scProgressEvents (startSelfCheck sq a o opts fs1).trace =
      scProgressEvents (startSelfCheck sq a o opts fs2).trace := by
  rcases startSelfCheck_shape sq a o opts fs1 with
      ⟨err, h1, hr⟩ | ⟨db, err, h1, h2, hr⟩ | ⟨db, db2, err, h1, h2, h3, hr⟩ |
      ⟨db, db2, c1, err, h1, h2, h3, h4, hr⟩ |
      ⟨db, db2, c1, c2, h1, h2, h3, h4, hr⟩ <;>
    rcases startSelfCheck_shape sq a o opts fs2 with
        ⟨err9, g1, hr2⟩ | ⟨db9, err9, g1, g2, hr2⟩ |
        ⟨db9, db29, err9, g1, g2, g3, hr2⟩ |
        ⟨db9, db29, c19, err9, g1, g2, g3, g4, hr2⟩ |
        ⟨db9, db29, c19, c29, g1, g2, g3, g4, hr2⟩ <;>
      rw [hr, hr2] <;> simp_all [scPre]

/-- C8: every self-check run starts with the banner, the unconditional
removal of any existing database file at the fixed self-check path, and the
database open, in that order (`scPre`); afterwards the self-check file is
absent from the modelled file system; the stage calls are a prefix of open →
load schema → load zcl (built-in default path) → load templates (built-in
default path), complete exactly on success; when logging is enabled, the trace
carries the per-stage progress lines in order, one per successful stage, and
none when logging is disabled; and the run's result and progress output do not
depend on a leftover database file, so two runs in succession are
independent. -/
theorem C8_self_check_fresh_order (sq : Option String → String) (a : Args)
    (o : Oracle) (opts : SelfCheckOptions) (fs0 : FS) :
    (∃ t, (startSelfCheck sq a o opts fs0).trace = scPre sq opts fs0 ++ t) ∧
    (scPre sq opts fs0 = scIntro (truthy opts.log) ++
      (if fs0.existsSync (sq (some "self-check")) then
        [Event.existsCheck (sq (some "self-check")) true,
         Event.unlinkFile (sq (some "self-check"))]
       else [Event.existsCheck (sq (some "self-check")) false]) ++
      [Event.initDatabase (sq (some "self-check"))]) ∧
    (startSelfCheck sq a o opts fs0).fs.existsSync (sq (some "self-check")) = false ∧
    (∃ rest m,
      stageCalls (startSelfCheck sq a o opts fs0).trace ++ rest =
        (if fs0.existsSync (sq (some "self-check")) then
          [StageCall.ensureFresh (sq (some "self-check"))]
         else []) ++ scCallList sq a ∧
      (resultOk (startSelfCheck sq a o opts fs0).result = true → rest = []) ∧
      (truthy opts.log = true →
        scProgressEvents (startSelfCheck sq a o opts fs0).trace =
          scProgressLines.take m) ∧
      (truthy opts.log = false →
        scProgressEvents (startSelfCheck sq a o opts fs0).trace = []) ∧
      (resultOk (startSelfCheck sq a o opts fs0).result = true → m = 4) ∧
      (resultOk (startSelfCheck sq a o opts fs0).result = false →
        m + 1 + rest.length = 4)) ∧
    (startSelfCheck sq a o opts
        (fs0.unlinkSync (sq (some "self-check")))).result =
      (startSelfCheck sq a o opts fs0).result ∧
    scProgressEvents (startSelfCheck sq a o opts
        (fs0.unlinkSync (sq (some "self-check")))).trace =
      scProgressEvents (startSelfCheck sq a o opts fs0).trace := by
  refine ⟨?_, ?_, ?_, ?_,
    (startSelfCheck_fs_irrelevant sq a o opts
      (fs0.unlinkSync (sq (some "self-check"))) fs0).1,
    (startSelfCheck_fs_irrelevant sq a o opts
      (fs0.unlinkSync (sq (some "self-check"))) fs0).2⟩
  · rcases startSelfCheck_shape sq a o opts fs0 with
        ⟨err, h1, hr⟩ | ⟨db, err, h1, h2, hr⟩ | ⟨db, db2, err, h1, h2, h3, hr⟩ |
        ⟨db, db2, c1, err, h1, h2, h3, h4, hr⟩ |
        ⟨db, db2, c1, c2, h1, h2, h3, h4, hr⟩ <;>
      rw [hr] <;> first
        | exact ⟨_, rfl⟩
        | exact ⟨_, by simp only [List.append_assoc]; rfl⟩
  · by_cases hx : fs0.existsSync (sq (some "self-check")) <;>
      simp [scPre, ensureFresh, hx]
  · rcases startSelfCheck_shape sq a o opts fs0 with
        ⟨err, h1, hr⟩ | ⟨db, err, h1, h2, hr⟩ | ⟨db, db2, err, h1, h2, h3, hr⟩ |
        ⟨db, db2, c1, err, h1, h2, h3, h4, hr⟩ |
        ⟨db, db2, c1, c2, h1, h2, h3, h4, hr⟩ <;>
      rw [hr] <;> by_cases hx : fs0.existsSync (sq (some "self-check")) <;>
        simp [scFs, ensureFresh, hx, FS.existsSync_unlinkSync_self]
  · rcases startSelfCheck_shape sq a o opts fs0 with
        ⟨err, h1, hr⟩ | ⟨db, err, h1, h2, hr⟩ | ⟨db, db2, err, h1, h2, h3, hr⟩ |
        ⟨db, db2, c1, err, h1, h2, h3, h4, hr⟩ |
        ⟨db, db2, c1, c2, h1, h2, h3, h4, hr⟩
    · refine ⟨[StageCall.loadSchema, StageCall.loadZcl a.zclPropertiesFile,
          StageCall.loadTemplates a.genTemplateJsonFile], 0, ?_, ?_, ?_, ?_, ?_, ?_⟩
      · rw [hr]
        by_cases hx : fs0.existsSync (sq (some "self-check")) <;>
          simp [scPre, ensureFresh, hx, stageCall, scCallList]
      · rw [hr]; simp [resultOk]
      · rw [hr]; intro hl
        simp [scPre, hl, logIf, scProgressEvents, scProgressLines]
      · rw [hr]; intro hl
        simp [scPre, hl, logIf, scProgressEvents, scProgressLines]
      · rw [hr]; simp [resultOk]
      · rw [hr]; simp [resultOk]
    · refine ⟨[StageCall.loadZcl a.zclPropertiesFile,
          StageCall.loadTemplates a.genTemplateJsonFile], 1, ?_, ?_, ?_, ?_, ?_, ?_⟩
      · rw [hr]
        by_cases hx : fs0.existsSync (sq (some "self-check")) <;>
          simp [scPre, ensureFresh, hx, stageCall, scCallList]
      · rw [hr]; simp [resultOk]
      · rw [hr]; intro hl
        simp [scPre, hl, logIf, scProgressEvents, scProgressLines]
        all_goals decide
      · rw [hr]; intro hl
        simp [scPre, hl, logIf, scProgressEvents, scProgressLines]
      · rw [hr]; simp [resultOk]
      · rw [hr]; simp [resultOk]
    · refine ⟨[StageCall.loadTemplates a.genTemplateJsonFile], 2,
          ?_, ?_, ?_, ?_, ?_, ?_⟩
      · rw [hr]
        by_cases hx : fs0.existsSync (sq (some "self-check")) <;>
          simp [scPre, ensureFresh, hx, stageCall, scCallList]
      · rw [hr]; simp [resultOk]
      · rw [hr]; intro hl
        simp [scPre, hl, logIf, scProgressEvents, scProgressLines]
        all_goals decide
      · rw [hr]; intro hl
        simp [scPre, hl, logIf, scProgressEvents, scProgressLines]
      · rw [hr]; simp [resultOk]
      · rw [hr]; simp [resultOk]
    · refine ⟨[], 3, ?_, ?_, ?_, ?_, ?_, ?_⟩
      · rw [hr]
        by_cases hx : fs0.existsSync (sq (some "self-check")) <;>
          simp [scPre, ensureFresh, hx, stageCall, scCallList]
      · rw [hr]; simp [resultOk]
      · rw [hr]; intro hl
        simp [scPre, hl, logIf, scProgressEvents, scProgressLines]
        all_goals decide
      · rw [hr]; intro hl
        simp [scPre, hl, logIf, scProgressEvents, scProgressLines]
      · rw [hr]; simp [resultOk]
      · rw [hr]; simp [resultOk]
    · refine ⟨[], 4, ?_, ?_, ?_, ?_, ?_, ?_⟩
      · rw [hr]
        by_cases hx : fs0.existsSync (sq (some "self-check")) <;>
          simp [scPre, ensureFresh, hx, stageCall, scCallList]
      · rw [hr]; simp [resultOk]
      · rw [hr]; intro hl
        simp [scPre, hl, logIf, scProgressEvents, scProgressLines]
        all_goals decide
      · rw [hr]; intro hl
        simp [scPre, hl, logIf, scProgressEvents, scProgressLines]
      · rw [hr]; simp [resultOk]
      · rw [hr]; simp [resultOk]

/-- C8 witness: a concrete self-check run over a leftover database file on the
all-success oracle: afterwards the self-check file is absent and all four
progress lines were emitted in order. -/
theorem C8_self_check_fresh_order_witness :
    (startSelfCheck sq0 args0 okOracle defaultSelfCheckOptions
        [(sq0 (some "self-check"), 5)]).fs.existsSync (sq0 (some "self-check")) =
      false ∧
    scProgressEvents (startSelfCheck sq0 args0 okOracle defaultSelfCheckOptions
        [(sq0 (some "self-check"), 5)]).trace = scProgressLines := by
  refine ⟨(C8_self_check_fresh_order sq0 args0 okOracle defaultSelfCheckOptions
      [(sq0 (some "self-check"), 5)]).2.2.1, ?_⟩
  obtain ⟨rest, m, hpre, hok, hlog, hnolog, hm4, hfail⟩ :=
    (C8_self_check_fresh_order sq0 args0 okOracle defaultSelfCheckOptions
      [(sq0 (some "self-check"), 5)]).2.2.2.1
  have h1 := hlog (by decide)
  have h2 := hm4 (by decide)
  rw [h1, h2]
  decide

/-- C9: whenever headless generation reaches the generate-and-write stage, the
package identifier it passes is exactly the one returned by the
template-package load, threaded forward unchanged through the captured
`packageId` variable. -/
theorem C9_packageId_threading (sq : Option String → String) (o : Oracle)
    (output gt zcl : String) (zapFile : Option String) (opts : GenOptions)
    (fs0 : FS) (d s pid : Nat) (od : String) (lg : Bool)
    (hm : Event.generateAndWriteFiles d s pid od lg ∈
      (startGeneration sq o output gt zcl zapFile opts fs0).trace) :
    ∃ db db2 c1 c2, o.initDatabase (sq (some "generate")) = Except.ok db ∧
      o.loadSchema db = Except.ok db2 ∧
      o.loadZcl db2 zcl = Except.ok c1 ∧
      o.loadTemplates c1.db gt = Except.ok c2 ∧
      pid = c2.packageId ∧
      (startGeneration sq o output gt zcl zapFile opts fs0).packageId =
        some c2.packageId := by
  rcases startGeneration_shape sq o output gt zcl zapFile opts fs0 with
      ⟨err, h1, hr⟩ | ⟨db, err, h1, h2, hr⟩ | ⟨db, db2, err, h1, h2, h3, hr⟩ |
      ⟨db, db2, c1, err, h1, h2, h3, h4, hr⟩ |
      ⟨db, db2, c1, c2, err, h1, h2, h3, h4, h5, hr⟩ |
      ⟨db, db2, c1, c2, sid, err, h1, h2, h3, h4, h5, h6, hr⟩ |
      ⟨db, db2, c1, c2, sid, sid2, err, h1, h2, h3, h4, h5, h6, h7, hr⟩ |
      ⟨db, db2, c1, c2, sid, sid2, h1, h2, h3, h4, h5, h6, h7, hr⟩
  · rw [hr] at hm; simp [genPre] at hm
  · rw [hr] at hm; simp [genPre] at hm
  · rw [hr] at hm; simp [genPre] at hm
  · rw [hr] at hm; simp [genPre] at hm
  · rw [hr] at hm; simp [genPre] at hm
  · rw [hr] at hm; simp [genPre] at hm
  · rw [hr] at hm
    simp [genPre] at hm
    obtain ⟨h9, h10, hpid, h11, h12⟩ := hm
    exact ⟨db, db2, c1, c2, h1, h2, h3, h4, hpid, by rw [hr]⟩
  · rw [hr] at hm
    simp [genPre] at hm
    obtain ⟨h9, h10, hpid, h11, h12⟩ := hm
    exact ⟨db, db2, c1, c2, h1, h2, h3, h4, hpid, by rw [hr]⟩

/-- C9 witness: on the all-success oracle, the concrete generate call uses
package identifier 9, the identifier assigned by the template load. -/
theorem C9_packageId_threading_witness :
    ∃ db db2 c1 c2, okOracle.initDatabase (sq0 (some "generate")) = Except.ok db ∧
      okOracle.loadSchema db = Except.ok db2 ∧
      okOracle.loadZcl db2 "zcl" = Except.ok c1 ∧
      okOracle.loadTemplates c1.db "gt" = Except.ok c2 ∧
      (9 : Nat) = c2.packageId ∧
      (startGeneration sq0 okOracle "out" "gt" "zcl" none defaultGenOptions
          []).packageId = some c2.packageId :=
  C9_packageId_threading sq0 okOracle "out" "gt" "zcl" none defaultGenOptions
    [] 1 3 9 "out" true (by decide)

/-- C10: the documented defaults `quit=true, cleanDb=true, log=true` live only
in the default options objects; a caller-supplied options object with a
missing flag behaves as if that flag were `false` (JavaScript `undefined` is
falsy), so passing only `log: false` neither cleans the database file
beforehand nor quits on success. -/
theorem C10_partial_options (sq : Option String → String) (a : Args) (o : Oracle)
    (output gt zcl generationDir : String) (zapFile zclPath : Option String)
    (q c l : Option Bool) (fs0 : FS) :
    defaultGenOptions = ⟨some true, some true, some true⟩ ∧
    defaultSdkOptions = ⟨some true, some true⟩ ∧
    startGeneration sq o output gt zcl zapFile ⟨none, c, l⟩ fs0 =
      startGeneration sq o output gt zcl zapFile ⟨some false, c, l⟩ fs0 ∧
    startGeneration sq o output gt zcl zapFile ⟨q, none, l⟩ fs0 =
      startGeneration sq o output gt zcl zapFile ⟨q, some false, l⟩ fs0 ∧
    startGeneration sq o output gt zcl zapFile ⟨q, c, none⟩ fs0 =
      startGeneration sq o output gt zcl zapFile ⟨q, c, some false⟩ fs0 ∧
    startSdkGeneration sq a o generationDir zclPath ⟨none, c⟩ fs0 =
      startSdkGeneration sq a o generationDir zclPath ⟨some false, c⟩ fs0 ∧
    startSdkGeneration sq a o generationDir zclPath ⟨q, none⟩ fs0 =
      startSdkGeneration sq a o generationDir zclPath ⟨q, some false⟩ fs0 ∧
    (startGeneration sq o output gt zcl zapFile ⟨none, none, some false⟩ fs0).fs =
      fs0 ∧
    (∀ p2, Event.unlinkFile p2 ∉
      (startGeneration sq o output gt zcl zapFile ⟨none, none, some false⟩
        fs0).trace) ∧
    (resultOk (startGeneration sq o output gt zcl zapFile ⟨none, none, some false⟩
        fs0).result = true →
      Event.appQuit ∉
        (startGeneration sq o output gt zcl zapFile ⟨none, none, some false⟩
          fs0).trace) := by
  refine ⟨rfl, rfl, rfl, rfl, rfl, rfl, rfl, ?_, ?_, ?_⟩
  · exact (startGeneration_pre sq o output gt zcl zapFile ⟨none, none, some false⟩
      fs0).1
  · intro p2
    rcases startGeneration_shape sq o output gt zcl zapFile
        ⟨none, none, some false⟩ fs0 with
        ⟨err, h1, hr⟩ | ⟨db, err, h1, h2, hr⟩ | ⟨db, db2, err, h1, h2, h3, hr⟩ |
        ⟨db, db2, c1, err, h1, h2, h3, h4, hr⟩ |
        ⟨db, db2, c1, c2, err, h1, h2, h3, h4, h5, hr⟩ |
        ⟨db, db2, c1, c2, sid, err, h1, h2, h3, h4, h5, h6, hr⟩ |
        ⟨db, db2, c1, c2, sid, sid2, err, h1, h2, h3, h4, h5, h6, h7, hr⟩ |
        ⟨db, db2, c1, c2, sid, sid2, h1, h2, h3, h4, h5, h6, h7, hr⟩ <;>
      rw [hr] <;> simp [genPre, ensureFresh, truthy]
  · rcases startGeneration_shape sq o output gt zcl zapFile
        ⟨none, none, some false⟩ fs0 with
        ⟨err, h1, hr⟩ | ⟨db, err, h1, h2, hr⟩ | ⟨db, db2, err, h1, h2, h3, hr⟩ |
        ⟨db, db2, c1, err, h1, h2, h3, h4, hr⟩ |
        ⟨db, db2, c1, c2, err, h1, h2, h3, h4, h5, hr⟩ |
        ⟨db, db2, c1, c2, sid, err, h1, h2, h3, h4, h5, h6, hr⟩ |
        ⟨db, db2, c1, c2, sid, sid2, err, h1, h2, h3, h4, h5, h6, h7, hr⟩ |
        ⟨db, db2, c1, c2, sid, sid2, h1, h2, h3, h4, h5, h6, h7, hr⟩ <;>
      rw [hr] <;> simp [genPre, ensureFresh, truthy, resultOk, quitIf]

/-- C10 witness: with a pre-existing database file and options `{log: false}`,
a concrete run leaves the file system untouched and, though it succeeds, does
not quit. -/
theorem C10_partial_options_witness :
    (startGeneration sq0 okOracle "out" "gt" "zcl" none ⟨none, none, some false⟩
        [(sq0 (some "generate"), 5)]).fs = [(sq0 (some "generate"), 5)] ∧
    Event.appQuit ∉
      (startGeneration sq0 okOracle "out" "gt" "zcl" none ⟨none, none, some false⟩
        [(sq0 (some "generate"), 5)]).trace :=
  ⟨(C10_partial_options sq0 args0 okOracle "out" "gt" "zcl" "dir" none none
      none none none [(sq0 (some "generate"), 5)]).2.2.2.2.2.2.2.1,
    (C10_partial_options sq0 args0 okOracle "out" "gt" "zcl" "dir" none none
      none none none [(sq0 (some "generate"), 5)]).2.2.2.2.2.2.2.2.2 (by decide)⟩

end Zap
